import Mathlib

/-!
Shallow embedding of the m5can firmware (M5Stack Core2 + COMMU CAN module).

The repository holds two variants of the sketch:
* `src/unnamed/part_000` — the SD/IMU dual-stream logging variant
  (namespace `M5can` below): CAN receive drain, periodic single-frame
  transmit, dual-stream SD logging with session-id rotation, power
  management with screen on/off, differential display refresh.
* `src/src/main.cpp` — the frame-catalogue variant (namespace `Catalog`
  below): multi-frame catalogue with NEXT/PREV advance and immediate
  send on advance.

Machine integers (`unsigned long`, `uint8_t`) are modelled as `Nat`;
the values involved (millisecond timestamps, counters, file sizes,
byte values < 256) never approach 2^32 in any statement proved here,
so no explicit truncation is required.  Fallible hardware/SD calls are
modelled by explicit boolean oracle parameters.  Hardware side effects
(serial prints, LCD pixel writes) are modelled as emitted events where
a claim needs them and dropped otherwise.
-/

set_option maxHeartbeats 1000000
set_option maxRecDepth 8000

namespace M5can

/-! ### Hexadecimal formatting (Arduino `Print::printNumber` with HEX base)

`Print::printNumber` emits uppercase hexadecimal digits
(`c < 10 ? c + '0' : c + 'A' - 10`); `printf` with `%03lX` emits
uppercase hexadecimal left-padded with zeroes to width 3. -/

/-- One uppercase hexadecimal digit, as produced by `Print::printNumber`. -/
def hexDigitChar (n : Nat) : Char :=
  if n < 10 then Char.ofNat (48 + n) else Char.ofNat (55 + n)

/-- Fuel-driven digit expansion of `n` in base 16, most significant first.
Structural recursion on the fuel so that the kernel can evaluate it. -/
def toHexListAux : Nat → Nat → List Char
  | 0, _ => []
  | fuel + 1, n =>
      if n < 16 then [hexDigitChar n]
      else toHexListAux fuel (n / 16) ++ [hexDigitChar (n % 16)]

/-- Uppercase hexadecimal digit list of `n` (no padding, `0 ↦ "0"`). -/
def toHexList (n : Nat) : List Char :=
  toHexListAux (n + 1) n

/-- Uppercase hexadecimal string of `n`, as printed by the firmware. -/
def hexStr (n : Nat) : String :=
  String.mk (toHexList n)

/-- Left-pad a string with `'0'` up to width `w` (the `%03lX` padding). -/
def pad0 (w : Nat) (s : String) : String :=
  String.mk (List.replicate (w - s.length) '0') ++ s

/-- One data byte as printed by `logCanFrame`: a leading `"0"` when the
byte is below `0x10`, then the uppercase hex digits. -/
def printHexByte (b : Nat) : String :=
  (if b < 16 then "0" else "") ++ hexStr b

/-- The `data_hex` field: bytes space-separated, no trailing separator
(the `if (i < len - 1)` logic of the write loop). -/
def dataHex (l : List Nat) : String :=
  String.intercalate " " (l.map printHexByte)

/-- The CSV row written by `logCanFrame` (before the terminating
`println`): `timestamp_ms,type,id,length,data_hex` with the id printed
via `printf("0x%03lX")`.  The data loop runs for `len` bytes. -/
def canLogLine (t : Nat) (ty : String) (id : Nat) (len : Nat) (data : List Nat) : String :=
  toString t ++ "," ++ ty ++ ",0x" ++ pad0 3 (hexStr id) ++ "," ++ toString len ++ ","
    ++ dataHex (data.take len)

/-! ### SD card dual-stream logging (part_000)

Storage is an association list from filename to raw file content
(a `String`: `println` appends `"\r\n"`, the IMU data `printf` ends in
`"\n"`).  `SD.open(name, FILE_WRITE)` truncates, which `setFile` models
by replacing the entry.  The `canOk`/`imuOk` oracle booleans stand for
success of `SD.open` (an `initSD` failure can only occur before the SD
card ever came up, in which case no handle is open and the outcome
coincides); `newId` stands for the value drawn from `esp_random()` by
`generateSessionId`. -/

/-- Carriage-return/line-feed pair appended by Arduino `println`. -/
def crlf : String := "\r\n"

/-- `LOG_FILENAME_PREFIX + sessionId + LOG_FILENAME_EXT`. -/
def canLogName (sessionId : String) : String :=
  "/can_log_" ++ sessionId ++ ".csv"

/-- `IMU_FILENAME_PREFIX + sessionId + LOG_FILENAME_EXT`. -/
def imuLogName (sessionId : String) : String :=
  "/imu_log_" ++ sessionId ++ ".csv"

/-- Header row of the CAN stream. -/
def canHeader : String := "timestamp_ms,type,id,length,data_hex"

/-- Header row of the IMU stream. -/
def imuHeader : String := "timestamp_ms,accel_x,accel_y,accel_z,gyro_x,gyro_y,gyro_z"

/-- `MAX_LOG_FILE_SIZE` (10 MB). -/
def maxLogFileSize : Nat := 10485760

/-- Removable storage: filename ↦ raw byte content. -/
def Storage := List (String × String)

instance : DecidableEq Storage := by
  unfold Storage
  infer_instance

/-- Content of a file (empty when absent). -/
def getFile (st : Storage) (name : String) : String :=
  match st with
  | [] => ""
  | (n, c) :: rest => if n = name then c else getFile rest name

/-- Replace (or create) a file's content, as `FILE_WRITE` truncation does. -/
def setFile (st : Storage) (name : String) (content : String) : Storage :=
  match st with
  | [] => [(name, content)]
  | (n, c) :: rest => if n = name then (name, content) :: rest else (n, c) :: setFile rest name content

/-- Append bytes to an existing file through an open handle. -/
def appendFile (st : Storage) (name : String) (bytes : String) : Storage :=
  setFile st name (getFile st name ++ bytes)

/-- The SD-logging globals of part_000.  `canOpen`/`imuOpen` are the
`logFile`/`imuLogFile` handles (the filename they point at, `none` when
closed); `logFileSize`/`imuLogFileSize` the size-tracking globals. -/
structure SDState where
  sdInitialized : Bool
  sdLoggingEnabled : Bool
  canOpen : Option String
  imuOpen : Option String
  logFileSize : Nat
  imuLogFileSize : Nat
  currentSessionId : String
  lastImuLogTime : Nat
  storage : Storage
deriving DecidableEq

/-- `closeLogFile`: drops the handle (content already on storage). -/
def closeLogFile (s : SDState) : SDState :=
  { s with canOpen := none }

/-- `closeImuLogFile`. -/
def closeImuLogFile (s : SDState) : SDState :=
  { s with imuOpen := none }

/-- `openLogFile`: closes any open handle, then opens
`/can_log_<sessionId>.csv` for writing (truncating), writes the CSV
header and resets `logFileSize = 0` (the code does not count the header
into `logFileSize`).  `ok` is the `SD.open` success oracle; on failure
the handle ends up closed. -/
def openLogFile (ok : Bool) (s : SDState) : Bool × SDState :=
  let s1 := { s with canOpen := none }
  if ok then
    let name := canLogName s.currentSessionId
    (true, { s1 with canOpen := some name
                     logFileSize := 0
                     storage := setFile s1.storage name (canHeader ++ crlf) })
  else
    (false, s1)

/-- `openImuLogFile`, symmetric to `openLogFile`. -/
def openImuLogFile (ok : Bool) (s : SDState) : Bool × SDState :=
  let s1 := { s with imuOpen := none }
  if ok then
    let name := imuLogName s.currentSessionId
    (true, { s1 with imuOpen := some name
                     imuLogFileSize := 0
                     storage := setFile s1.storage name (imuHeader ++ crlf) })
  else
    (false, s1)

/-- `rotateLogFiles`: close both streams, draw a new session id, reopen
both; on partial failure close whichever opened and report failure. -/
def rotateLogFiles (newId : String) (canOk imuOk : Bool) (s : SDState) : Bool × SDState :=
  let s1 := closeImuLogFile (closeLogFile s)
  let s2 := { s1 with currentSessionId := newId }
  let (ok1, s3) := openLogFile canOk s2
  let (ok2, s4) := openImuLogFile imuOk s3
  if ok1 = false ∨ ok2 = false then
    let s5 := if ok1 = true then closeLogFile s4 else s4
    let s6 := if ok2 = true then closeImuLogFile s5 else s5
    (false, s6)
  else
    (true, s4)

/-- Oracle bundle for one append: the session id `generateSessionId`
would draw and the two `SD.open` outcomes, should rotation fire. -/
structure RotEnv where
  newId : String
  canOk : Bool
  imuOk : Bool
deriving DecidableEq

/-- The write portion of `logCanFrame`: format the row, `println` it
through the open handle, refresh `logFileSize` from the file size.
(The periodic `flush` changes no content and is not modelled.) -/
def writeCanLine (now : Nat) (ty : String) (id : Nat) (len : Nat) (data : List Nat)
    (s : SDState) : SDState :=
  match s.canOpen with
  | none => s
  | some name =>
      let st := appendFile s.storage name (canLogLine now ty id len data ++ crlf)
      { s with storage := st, logFileSize := (getFile st name).length }

/-- The write portion of `logImuData`.  The row is the
`%lu,%.4f,...` rendering of the sample; IEEE-754 text formatting is
outside the claims, so the already-rendered sample text is taken as a
parameter (`printf` ends the row with a bare `"\n"`). -/
def writeImuLine (now : Nat) (sampleCsv : String) (s : SDState) : SDState :=
  match s.imuOpen with
  | none => s
  | some name =>
      let st := appendFile s.storage name (toString now ++ "," ++ sampleCsv ++ "\n")
      { s with storage := st, imuLogFileSize := (getFile st name).length }

/-- `logCanFrame`: no-op unless logging is enabled and the CAN handle is
open; rotates both streams first when either tracked size exceeds
`MAX_LOG_FILE_SIZE` (disabling logging if rotation fails), then appends
the formatted row. -/
def logCanFrame (now : Nat) (env : RotEnv) (ty : String) (id : Nat) (len : Nat)
    (data : List Nat) (s : SDState) : SDState :=
  if s.sdLoggingEnabled = false ∨ s.canOpen = none then s
  else if s.logFileSize > maxLogFileSize ∨ s.imuLogFileSize > maxLogFileSize then
    match rotateLogFiles env.newId env.canOk env.imuOk s with
    | (false, s1) => { s1 with sdLoggingEnabled := false }
    | (true, s1) => writeCanLine now ty id len data s1
  else
    writeCanLine now ty id len data s

/-- `logImuData`: same guard/rotation structure on the IMU handle. -/
def logImuData (now : Nat) (env : RotEnv) (sampleCsv : String) (s : SDState) : SDState :=
  if s.sdLoggingEnabled = false ∨ s.imuOpen = none then s
  else if s.logFileSize > maxLogFileSize ∨ s.imuLogFileSize > maxLogFileSize then
    match rotateLogFiles env.newId env.canOk env.imuOk s with
    | (false, s1) => { s1 with sdLoggingEnabled := false }
    | (true, s1) => writeImuLine now sampleCsv s1
  else
    writeImuLine now sampleCsv s

/-- `toggleSDLogging`: when disabled, draw a session id and open both
streams, enabling only if both opened (closing the survivor otherwise);
when enabled, close both and disable. -/
def toggleSDLogging (now : Nat) (env : RotEnv) (s : SDState) : SDState :=
  if s.sdLoggingEnabled = false then
    let s0 := { s with currentSessionId := env.newId }
    let (ok1, s1) := openLogFile env.canOk s0
    let (ok2, s2) := openImuLogFile env.imuOk s1
    if ok1 = true ∧ ok2 = true then
      { s2 with sdLoggingEnabled := true, lastImuLogTime := now }
    else
      let s3 := if ok1 = true then closeLogFile s2 else s2
      let s4 := if ok2 = true then closeImuLogFile s3 else s3
      s4
  else
    closeImuLogFile (closeLogFile { s with sdLoggingEnabled := false })

/-- SD state right after `setup()` (card initialised, logging off). -/
def initSDState : SDState :=
  { sdInitialized := true
    sdLoggingEnabled := false
    canOpen := none
    imuOpen := none
    logFileSize := 0
    imuLogFileSize := 0
    currentSessionId := ""
    lastImuLogTime := 0
    storage := [] }

/-- Every way the firmware touches the SD-logging state after setup:
button C toggles, received/sent frames append CAN rows, the 10 Hz IMU
task appends motion rows. -/
inductive SDReach : SDState → Prop
  | init : SDReach initSDState
  | toggle (now : Nat) (env : RotEnv) {s : SDState} :
      SDReach s → SDReach (toggleSDLogging now env s)
  | logCan (now : Nat) (env : RotEnv) (ty : String) (id len : Nat) (data : List Nat)
      {s : SDState} : SDReach s → SDReach (logCanFrame now env ty id len data s)
  | logImu (now : Nat) (env : RotEnv) (sampleCsv : String) {s : SDState} :
      SDReach s → SDReach (logImuData now env sampleCsv s)

/-- The session-pairing invariant: both handles open on the two
filenames of one shared session id, or both closed. -/
def pairedHandles (s : SDState) : Prop :=
  (s.canOpen = none ∧ s.imuOpen = none) ∨
    ∃ id, s.canOpen = some (canLogName id) ∧ s.imuOpen = some (imuLogName id)

lemma writeCanLine_canOpen (now : Nat) (ty : String) (id len : Nat) (data : List Nat)
    (s : SDState) : (writeCanLine now ty id len data s).canOpen = s.canOpen := by
  unfold writeCanLine
  cases h : s.canOpen <;> simp [h]

lemma writeCanLine_imuOpen (now : Nat) (ty : String) (id len : Nat) (data : List Nat)
    (s : SDState) : (writeCanLine now ty id len data s).imuOpen = s.imuOpen := by
  unfold writeCanLine
  cases h : s.canOpen <;> simp [h]

lemma writeImuLine_canOpen (now : Nat) (sampleCsv : String) (s : SDState) :
    (writeImuLine now sampleCsv s).canOpen = s.canOpen := by
  unfold writeImuLine
  cases h : s.imuOpen <;> simp [h]

lemma writeImuLine_imuOpen (now : Nat) (sampleCsv : String) (s : SDState) :
    (writeImuLine now sampleCsv s).imuOpen = s.imuOpen := by
  unfold writeImuLine
  cases h : s.imuOpen <;> simp [h]

/-- Outcome analysis of `rotateLogFiles`: success leaves both streams
open under the new session id; failure leaves both closed. -/
lemma rotateLogFiles_handles (newId : String) (canOk imuOk : Bool) (s : SDState) :
    (∃ s1, rotateLogFiles newId canOk imuOk s = (true, s1) ∧
      s1.canOpen = some (canLogName newId) ∧ s1.imuOpen = some (imuLogName newId)) ∨
    (∃ s1, rotateLogFiles newId canOk imuOk s = (false, s1) ∧
      s1.canOpen = none ∧ s1.imuOpen = none) := by
  cases canOk <;> cases imuOk <;>
    simp [rotateLogFiles, openLogFile, openImuLogFile, closeLogFile, closeImuLogFile]

lemma pairedHandles_toggle (now : Nat) (env : RotEnv) (s : SDState)
    (h : pairedHandles s) : pairedHandles (toggleSDLogging now env s) := by
  by_cases he : s.sdLoggingEnabled = false
  · obtain ⟨newId, canOk, imuOk⟩ := env
    cases canOk <;> cases imuOk <;>
      simp [toggleSDLogging, he, openLogFile, openImuLogFile, closeLogFile, closeImuLogFile,
        pairedHandles] <;>
      exact ⟨newId, rfl, rfl⟩
  · simp [toggleSDLogging, he, closeLogFile, closeImuLogFile, pairedHandles]

lemma pairedHandles_logCanFrame (now : Nat) (env : RotEnv) (ty : String) (id len : Nat)
    (data : List Nat) (s : SDState) (h : pairedHandles s) :
    pairedHandles (logCanFrame now env ty id len data s) := by
  unfold logCanFrame
  by_cases hg : s.sdLoggingEnabled = false ∨ s.canOpen = none
  · rw [if_pos hg]
    exact h
  · rw [if_neg hg]
    by_cases hr : s.logFileSize > maxLogFileSize ∨ s.imuLogFileSize > maxLogFileSize
    · rw [if_pos hr]
      rcases rotateLogFiles_handles env.newId env.canOk env.imuOk s with
        ⟨s1, heq, hc, hi⟩ | ⟨s1, heq, hc, hi⟩
      · rw [heq]
        right
        exact ⟨env.newId, by rw [writeCanLine_canOpen]; exact hc,
          by rw [writeCanLine_imuOpen]; exact hi⟩
      · rw [heq]
        left
        exact ⟨hc, hi⟩
    · rw [if_neg hr]
      rcases h with ⟨hc, _⟩ | ⟨id0, hc, hi⟩
      · exact absurd (Or.inr hc) hg
      · right
        exact ⟨id0, by rw [writeCanLine_canOpen]; exact hc,
          by rw [writeCanLine_imuOpen]; exact hi⟩

lemma pairedHandles_logImuData (now : Nat) (env : RotEnv) (sampleCsv : String)
    (s : SDState) (h : pairedHandles s) :
    pairedHandles (logImuData now env sampleCsv s) := by
  unfold logImuData
  by_cases hg : s.sdLoggingEnabled = false ∨ s.imuOpen = none
  · rw [if_pos hg]
    exact h
  · rw [if_neg hg]
    by_cases hr : s.logFileSize > maxLogFileSize ∨ s.imuLogFileSize > maxLogFileSize
    · rw [if_pos hr]
      rcases rotateLogFiles_handles env.newId env.canOk env.imuOk s with
        ⟨s1, heq, hc, hi⟩ | ⟨s1, heq, hc, hi⟩
      · rw [heq]
        right
        exact ⟨env.newId, by rw [writeImuLine_canOpen]; exact hc,
          by rw [writeImuLine_imuOpen]; exact hi⟩
      · rw [heq]
        left
        exact ⟨hc, hi⟩
    · rw [if_neg hr]
      rcases h with ⟨_, hi⟩ | ⟨id0, hc, hi⟩
      · exact absurd (Or.inr hi) hg
      · right
        exact ⟨id0, by rw [writeImuLine_canOpen]; exact hc,
          by rw [writeImuLine_imuOpen]; exact hi⟩

/-- C2: in every reachable SD-logging state, either both log file
handles (CAN stream and IMU stream) are open on the two filenames of
one shared session id, or neither is open: enabling opens both or —
on partial failure — closes whichever opened; disabling closes both;
rotation inside either append closes both and reopens both under one
new shared id, disabling logging if it fails.  No reachable state has
one stream under the old session and the other under the new. -/
theorem c2_session_pairing_invariant (s : SDState) (h : SDReach s) : pairedHandles s := by
  induction h with
  | init => exact Or.inl ⟨rfl, rfl⟩
  | toggle now env hprev ih => exact pairedHandles_toggle now env _ ih
  | logCan now env ty id len data hprev ih =>
      exact pairedHandles_logCanFrame now env ty id len data _ ih
  | logImu now env sampleCsv hprev ih => exact pairedHandles_logImuData now env sampleCsv _ ih

/-- Witness for C2: the post-setup state is reachable and satisfies the
pairing invariant; so does the state after a successful enable. -/
theorem c2_session_pairing_invariant_witness :
    pairedHandles initSDState ∧
      pairedHandles (toggleSDLogging 0 ⟨"A1B2C3", true, true⟩ initSDState) :=
  ⟨c2_session_pairing_invariant initSDState SDReach.init,
   c2_session_pairing_invariant _ (SDReach.toggle 0 ⟨"A1B2C3", true, true⟩ SDReach.init)⟩

/-- C10: appending a bus frame or a motion sample while logging is
disabled is a silent no-op — the whole logger state, in particular the
storage contents (byte for byte), is returned unchanged, and no error
is signalled (the functions return normally in all cases). -/
theorem c10_append_disabled_noop (s : SDState) (hdis : s.sdLoggingEnabled = false)
    (now : Nat) (env : RotEnv) (ty : String) (id len : Nat) (data : List Nat)
    (sampleCsv : String) :
    logCanFrame now env ty id len data s = s ∧ logImuData now env sampleCsv s = s := by
  constructor
  · unfold logCanFrame
    rw [if_pos (Or.inl hdis)]
  · unfold logImuData
    rw [if_pos (Or.inl hdis)]

/-- Witness for C10: a concrete disabled state with non-empty storage is
left untouched by both append operations. -/
theorem c10_append_disabled_noop_witness :
    logCanFrame 1000 ⟨"FFFFFF", true, true⟩ "TX" 2015 8 [2, 1, 13, 85, 85, 85, 85, 85]
        { initSDState with storage := [("/can_log_OLD.csv", "x")] } =
      { initSDState with storage := [("/can_log_OLD.csv", "x")] } ∧
    logImuData 1000 ⟨"FFFFFF", true, true⟩ "0.1,0.2,0.3,0.4,0.5,0.6"
        { initSDState with storage := [("/can_log_OLD.csv", "x")] } =
      { initSDState with storage := [("/can_log_OLD.csv", "x")] } :=
  c10_append_disabled_noop _ rfl 1000 ⟨"FFFFFF", true, true⟩ "TX" 2015 8
    [2, 1, 13, 85, 85, 85, 85, 85] "0.1,0.2,0.3,0.4,0.5,0.6"

/-! ### Storage and filename lemmas -/

lemma getFile_setFile_same (st : Storage) (n : String) (c : String) :
    getFile (setFile st n c) n = c := by
  induction st with
  | nil => simp [setFile, getFile]
  | cons p rest ih =>
      obtain ⟨pn, pc⟩ := p
      by_cases h : pn = n
      · simp [setFile, h, getFile]
      · simp only [setFile, if_neg h, getFile, if_neg h]
        exact ih

lemma getFile_setFile_ne (st : Storage) (n m : String) (c : String) (h : m ≠ n) :
    getFile (setFile st n c) m = getFile st m := by
  induction st with
  | nil => simp [setFile, getFile, Ne.symm h]
  | cons p rest ih =>
      obtain ⟨pn, pc⟩ := p
      by_cases hp : pn = n
      · subst hp
        simp [setFile, getFile, Ne.symm h]
      · by_cases hm : pn = m
        · subst hm
          simp [setFile, hp, getFile]
        · simp only [setFile, if_neg hp, getFile, if_neg hm]
          exact ih

lemma getFile_appendFile_same (st : Storage) (n : String) (b : String) :
    getFile (appendFile st n b) n = getFile st n ++ b := by
  simp [appendFile, getFile_setFile_same]

lemma getFile_appendFile_ne (st : Storage) (n m : String) (b : String) (h : m ≠ n) :
    getFile (appendFile st n b) m = getFile st m :=
  getFile_setFile_ne _ _ _ _ h

lemma string_append_inj (p q a b : String) (h : p ++ a ++ q = p ++ b ++ q) : a = b := by
  have hd := congrArg String.data h
  simp only [String.data_append] at hd
  have h3 : a.data = b.data := by
    simpa using hd
  cases a
  cases b
  exact congrArg String.mk h3

lemma canLogName_inj {a b : String} (h : canLogName a = canLogName b) : a = b :=
  string_append_inj "/can_log_" ".csv" a b h

lemma imuLogName_inj {a b : String} (h : imuLogName a = imuLogName b) : a = b :=
  string_append_inj "/imu_log_" ".csv" a b h

lemma canLogName_ne_imuLogName (a b : String) : canLogName a ≠ imuLogName b := by
  intro h
  have h2 := congrArg (fun s => s.data.take 9) h
  simp only [canLogName, imuLogName, String.data_append, List.append_assoc] at h2
  rw [List.take_left' (by decide), List.take_left' (by decide)] at h2
  exact absurd h2 (by decide)

/-! ### C1: rotation check semantics -/

/-- A run of `n` filler bytes, standing for previously logged rows. -/
def padA (n : Nat) : String :=
  String.mk (List.replicate n 'a')

lemma padA_length (n : Nat) : (padA n).length = n := by
  show (String.mk (List.replicate n 'a')).length = n
  simp [String.length]

/-- Reduction of `writeCanLine` on an open handle. -/
lemma writeCanLine_eq (s : SDState) (now : Nat) (ty : String) (id len : Nat)
    (data : List Nat) (name : String) (hcan : s.canOpen = some name) :
    writeCanLine now ty id len data s =
      { s with storage := appendFile s.storage name (canLogLine now ty id len data ++ crlf),
               logFileSize :=
                 (getFile s.storage name ++ (canLogLine now ty id len data ++ crlf)).length } := by
  unfold writeCanLine
  rw [hcan]
  simp only [getFile_appendFile_same]

/-- Reduction of `writeImuLine` on an open handle. -/
lemma writeImuLine_eq (s : SDState) (now : Nat) (sampleCsv : String) (name : String)
    (himu : s.imuOpen = some name) :
    writeImuLine now sampleCsv s =
      { s with storage := appendFile s.storage name (toString now ++ "," ++ sampleCsv ++ "\n"),
               imuLogFileSize :=
                 (getFile s.storage name ++ (toString now ++ "," ++ sampleCsv ++ "\n")).length } := by
  unfold writeImuLine
  rw [himu]
  simp only [getFile_appendFile_same]

/-- Reduction of `logImuData` when logging is active and neither
tracked size exceeds the threshold: the row is appended to the
currently open IMU file and the tracked size refreshed. -/
lemma logImuData_write (s : SDState) (now : Nat) (env : RotEnv) (sampleCsv : String)
    (name : String) (hen : s.sdLoggingEnabled = true) (himu : s.imuOpen = some name)
    (hsz : ¬(s.logFileSize > maxLogFileSize ∨ s.imuLogFileSize > maxLogFileSize)) :
    logImuData now env sampleCsv s =
      { s with storage := appendFile s.storage name (toString now ++ "," ++ sampleCsv ++ "\n"),
               imuLogFileSize :=
                 (getFile s.storage name ++ (toString now ++ "," ++ sampleCsv ++ "\n")).length } := by
  unfold logImuData
  rw [if_neg (by simp [hen, himu]), if_neg hsz]
  exact writeImuLine_eq s now sampleCsv name himu

/-- Reduction of `logCanFrame` when logging is active and neither
tracked size exceeds the threshold: the row is appended to the
currently open CAN file and the tracked size refreshed. -/
lemma logCanFrame_write (s : SDState) (now : Nat) (env : RotEnv) (ty : String) (id len : Nat)
    (data : List Nat) (name : String)
    (hen : s.sdLoggingEnabled = true) (hcan : s.canOpen = some name)
    (hsz : ¬(s.logFileSize > maxLogFileSize ∨ s.imuLogFileSize > maxLogFileSize)) :
    logCanFrame now env ty id len data s =
      { s with storage := appendFile s.storage name (canLogLine now ty id len data ++ crlf),
               logFileSize :=
                 (getFile s.storage name ++ (canLogLine now ty id len data ++ crlf)).length } := by
  unfold logCanFrame
  rw [if_neg (by simp [hen, hcan]), if_neg hsz]
  unfold writeCanLine
  rw [hcan]
  simp only [getFile_appendFile_same]

/-- Reduction of `rotateLogFiles` when both reopens succeed. -/
lemma rotateLogFiles_ok (newId : String) (s : SDState) :
    rotateLogFiles newId true true s =
      (true, { s with canOpen := some (canLogName newId),
                      imuOpen := some (imuLogName newId),
                      currentSessionId := newId,
                      logFileSize := 0, imuLogFileSize := 0,
                      storage := setFile (setFile s.storage (canLogName newId) (canHeader ++ crlf))
                                   (imuLogName newId) (imuHeader ++ crlf) }) := by
  simp [rotateLogFiles, openLogFile, openImuLogFile, closeLogFile, closeImuLogFile]

/-- C1 as stated, first half: the *combined* (summed) size of the two
streams is checked against the 10 MB threshold before the record is
written, and a crossing of the threshold triggers rotation to a fresh
session id before the pending record is written. -/
def C1CombinedSizeCheck : Prop :=
  ∀ (s : SDState) (now : Nat) (env : RotEnv) (ty : String) (id len : Nat) (data : List Nat),
    s.sdLoggingEnabled = true →
    s.canOpen = some (canLogName s.currentSessionId) →
    s.imuOpen = some (imuLogName s.currentSessionId) →
    s.logFileSize + s.imuLogFileSize > maxLogFileSize →
    env.canOk = true → env.imuOk = true → env.newId ≠ s.currentSessionId →
    (logCanFrame now env ty id len data s).currentSessionId = env.newId

/-- C1 as stated, second half: the record whose write makes the
bus-frame stream exceed the threshold appears in the new session's
file, never in the old one — i.e. an append that pushes the tracked
size past the threshold leaves the old session's CAN file untouched. -/
def C1CrossingRecordInNewFile : Prop :=
  ∀ (s : SDState) (now : Nat) (env : RotEnv) (ty : String) (id len : Nat) (data : List Nat),
    s.sdLoggingEnabled = true →
    s.canOpen = some (canLogName s.currentSessionId) →
    s.logFileSize ≤ maxLogFileSize → s.imuLogFileSize ≤ maxLogFileSize →
    (logCanFrame now env ty id len data s).logFileSize > maxLogFileSize →
    getFile (logCanFrame now env ty id len data s).storage (canLogName s.currentSessionId)
      = getFile s.storage (canLogName s.currentSessionId)

/-- Active logging state whose streams hold 6 MB and 5 MB respectively:
the summed size (11 MB) exceeds the threshold but neither stream does
individually.  The tracked sizes agree with the stored contents. -/
def cexCombined : SDState :=
  { sdInitialized := true
    sdLoggingEnabled := true
    canOpen := some (canLogName "A1B2C3")
    imuOpen := some (imuLogName "A1B2C3")
    logFileSize := 6291456
    imuLogFileSize := 5242880
    currentSessionId := "A1B2C3"
    lastImuLogTime := 0
    storage := [(canLogName "A1B2C3", canHeader ++ crlf ++ padA (6291456 - canHeader.length - 2)),
                (imuLogName "A1B2C3", imuHeader ++ crlf ++ padA (5242880 - imuHeader.length - 2))] }

/-- Active logging state whose CAN stream sits exactly at the 10 MB
threshold (the IMU stream holds just its header, matching the
`imuLogFileSize = 0` the code tracks right after opening): the next
CAN append crosses the threshold. -/
def cexCross : SDState :=
  { sdInitialized := true
    sdLoggingEnabled := true
    canOpen := some (canLogName "A1B2C3")
    imuOpen := some (imuLogName "A1B2C3")
    logFileSize := 10485760
    imuLogFileSize := 0
    currentSessionId := "A1B2C3"
    lastImuLogTime := 0
    storage := [(canLogName "A1B2C3", canHeader ++ crlf ++ padA (10485760 - canHeader.length - 2)),
                (imuLogName "A1B2C3", imuHeader ++ crlf)] }

lemma cexCombined_sizes_consistent :
    (getFile cexCombined.storage (canLogName "A1B2C3")).length = cexCombined.logFileSize ∧
    (getFile cexCombined.storage (imuLogName "A1B2C3")).length = cexCombined.imuLogFileSize := by
  have hcanlen : canHeader.length = 36 := by decide
  have himulen : imuHeader.length = 57 := by decide
  have hcrlf : crlf.length = 2 := by decide
  constructor
  · show (getFile _ _).length = 6291456
    rw [show getFile cexCombined.storage (canLogName "A1B2C3")
          = canHeader ++ crlf ++ padA (6291456 - canHeader.length - 2) from by
        simp only [cexCombined, getFile]
        simp]
    simp only [String.length_append, padA_length, hcanlen, hcrlf]
  · show (getFile _ _).length = 5242880
    rw [show getFile cexCombined.storage (imuLogName "A1B2C3")
          = imuHeader ++ crlf ++ padA (5242880 - imuHeader.length - 2) from by
        simp only [cexCombined, getFile]
        rw [if_neg (canLogName_ne_imuLogName _ _)]
        simp]
    simp only [String.length_append, padA_length, himulen, hcrlf]

/-- C1 counterexample: the claim as stated is false on `logCanFrame`.
First, in `cexCombined` the summed stream size (11 MB) exceeds the
threshold, yet the append does not rotate (the session id is
unchanged): the code compares each stream *individually* against the
threshold, never the sum.  Second, in `cexCross` the append makes the
CAN stream exceed the threshold, yet that crossing record is written
into the *old* session's file (which therefore changes): rotation only
fires on the append *after* a size already exceeds the threshold. -/
theorem c1_counterexample : ¬ C1CombinedSizeCheck ∧ ¬ C1CrossingRecordInNewFile := by
  have hwrite1 := logCanFrame_write cexCombined 2000 ⟨"FFFFFF", true, true⟩ "RX" 291 2 [17, 34]
    (canLogName "A1B2C3") rfl rfl (by decide)
  have hwrite2 := logCanFrame_write cexCross 2000 ⟨"FFFFFF", true, true⟩ "RX" 291 2 [17, 34]
    (canLogName "A1B2C3") rfl rfl (by decide)
  constructor
  · intro h
    have hres := h cexCombined 2000 ⟨"FFFFFF", true, true⟩ "RX" 291 2 [17, 34]
      rfl rfl rfl (by decide) rfl rfl (by decide)
    rw [hwrite1] at hres
    exact absurd hres (by decide)
  · intro h
    have hcanlen : canHeader.length = 36 := by decide
    have hcrlf : crlf.length = 2 := by decide
    have hold : getFile cexCross.storage (canLogName "A1B2C3")
        = canHeader ++ crlf ++ padA (10485760 - canHeader.length - 2) := by
      simp only [cexCross, getFile]
      simp
    have hstor : (logCanFrame 2000 ⟨"FFFFFF", true, true⟩ "RX" 291 2 [17, 34] cexCross).storage
        = appendFile cexCross.storage (canLogName "A1B2C3")
            (canLogLine 2000 "RX" 291 2 [17, 34] ++ crlf) := by
      rw [hwrite2]
    have hsize : (logCanFrame 2000 ⟨"FFFFFF", true, true⟩ "RX" 291 2 [17, 34] cexCross).logFileSize
        = 10485760 + ((canLogLine 2000 "RX" 291 2 [17, 34]).length + 2) := by
      rw [hwrite2]
      show (getFile cexCross.storage (canLogName "A1B2C3")
        ++ (canLogLine 2000 "RX" 291 2 [17, 34] ++ crlf)).length = _
      rw [hold]
      simp only [String.length_append, padA_length, hcanlen, hcrlf]
    have hres := h cexCross 2000 ⟨"FFFFFF", true, true⟩ "RX" 291 2 [17, 34]
      rfl rfl (by decide) (by decide)
      (by rw [hsize]; simp only [maxLogFileSize]; omega)
    rw [show cexCross.currentSessionId = "A1B2C3" from rfl] at hres
    rw [hstor, getFile_appendFile_same] at hres
    have hlen := congrArg String.length hres
    simp only [String.length_append, hcrlf] at hlen
    omega

/-- C1 amended: for every append — bus frame (`logCanFrame`) or motion
sample (`logImuData`) — while logging is active, each stream's tracked
size is checked individually against the 10 MB threshold before the
record is written; if either stream's size already exceeds the
threshold, both streams are rotated (closed, one fresh shared session
id, both reopened with fresh headers) before the pending record is
written, so that record lands in the new session's own stream file and
the old session's files are left untouched; otherwise no rotation
happens and the record is appended to the current session's file.  (The
record whose own write first pushes a size past the threshold thus
still lands in the old file; rotation fires on the next append.) -/
theorem c1_rotation_semantics (s : SDState) (now : Nat) (env : RotEnv) (ty : String)
    (id len : Nat) (data : List Nat) (sampleCsv : String)
    (hen : s.sdLoggingEnabled = true)
    (hcan : s.canOpen = some (canLogName s.currentSessionId))
    (himu : s.imuOpen = some (imuLogName s.currentSessionId))
    (hok1 : env.canOk = true) (hok2 : env.imuOk = true)
    (hnew : env.newId ≠ s.currentSessionId) :
    ((s.logFileSize > maxLogFileSize ∨ s.imuLogFileSize > maxLogFileSize) →
      (logCanFrame now env ty id len data s).currentSessionId = env.newId ∧
      (logCanFrame now env ty id len data s).canOpen = some (canLogName env.newId) ∧
      (logCanFrame now env ty id len data s).imuOpen = some (imuLogName env.newId) ∧
      getFile (logCanFrame now env ty id len data s).storage (canLogName env.newId)
        = canHeader ++ crlf ++ (canLogLine now ty id len data ++ crlf) ∧
      getFile (logCanFrame now env ty id len data s).storage (imuLogName env.newId)
        = imuHeader ++ crlf ∧
      getFile (logCanFrame now env ty id len data s).storage (canLogName s.currentSessionId)
        = getFile s.storage (canLogName s.currentSessionId)) ∧
    (¬(s.logFileSize > maxLogFileSize ∨ s.imuLogFileSize > maxLogFileSize) →
      (logCanFrame now env ty id len data s).currentSessionId = s.currentSessionId ∧
      getFile (logCanFrame now env ty id len data s).storage (canLogName s.currentSessionId)
        = getFile s.storage (canLogName s.currentSessionId)
            ++ (canLogLine now ty id len data ++ crlf)) ∧
    ((s.logFileSize > maxLogFileSize ∨ s.imuLogFileSize > maxLogFileSize) →
      (logImuData now env sampleCsv s).currentSessionId = env.newId ∧
      (logImuData now env sampleCsv s).canOpen = some (canLogName env.newId) ∧
      (logImuData now env sampleCsv s).imuOpen = some (imuLogName env.newId) ∧
      getFile (logImuData now env sampleCsv s).storage (imuLogName env.newId)
        = imuHeader ++ crlf ++ (toString now ++ "," ++ sampleCsv ++ "\n") ∧
      getFile (logImuData now env sampleCsv s).storage (canLogName env.newId)
        = canHeader ++ crlf ∧
      getFile (logImuData now env sampleCsv s).storage (imuLogName s.currentSessionId)
        = getFile s.storage (imuLogName s.currentSessionId)) ∧
    (¬(s.logFileSize > maxLogFileSize ∨ s.imuLogFileSize > maxLogFileSize) →
      (logImuData now env sampleCsv s).currentSessionId = s.currentSessionId ∧
      getFile (logImuData now env sampleCsv s).storage (imuLogName s.currentSessionId)
        = getFile s.storage (imuLogName s.currentSessionId)
            ++ (toString now ++ "," ++ sampleCsv ++ "\n")) := by
  have himune : imuLogName s.currentSessionId ≠ imuLogName env.newId := by
    intro hx
    exact hnew (imuLogName_inj hx).symm
  refine ⟨?_, ?_, ?_, ?_⟩
  · intro hcross
    have hrun : logCanFrame now env ty id len data s
        = writeCanLine now ty id len data
            { s with canOpen := some (canLogName env.newId),
                     imuOpen := some (imuLogName env.newId),
                     currentSessionId := env.newId,
                     logFileSize := 0, imuLogFileSize := 0,
                     storage := setFile (setFile s.storage (canLogName env.newId)
                                  (canHeader ++ crlf)) (imuLogName env.newId)
                                  (imuHeader ++ crlf) } := by
      unfold logCanFrame
      rw [if_neg (by simp [hen, hcan]), if_pos hcross]
      obtain ⟨newId, canOk, imuOk⟩ := env
      cases hok1
      cases hok2
      rw [rotateLogFiles_ok]
    have holdne : canLogName s.currentSessionId ≠ canLogName env.newId := by
      intro hx
      exact hnew (canLogName_inj hx).symm
    have holdne2 : canLogName s.currentSessionId ≠ imuLogName env.newId :=
      canLogName_ne_imuLogName _ _
    have hcannei : canLogName env.newId ≠ imuLogName env.newId :=
      canLogName_ne_imuLogName _ _
    rw [hrun, writeCanLine_eq _ now ty id len data (canLogName env.newId) rfl]
    refine ⟨rfl, rfl, rfl, ?_, ?_, ?_⟩
    · show getFile (appendFile _ _ _) _ = _
      rw [getFile_appendFile_same, getFile_setFile_ne _ _ _ _ hcannei, getFile_setFile_same]
    · show getFile (appendFile _ _ _) _ = _
      rw [getFile_appendFile_ne _ _ _ _ (Ne.symm hcannei), getFile_setFile_same]
    · show getFile (appendFile _ _ _) _ = _
      rw [getFile_appendFile_ne _ _ _ _ holdne, getFile_setFile_ne _ _ _ _ holdne2,
        getFile_setFile_ne _ _ _ _ holdne]
  · intro hsz
    rw [logCanFrame_write s now env ty id len data _ hen hcan hsz]
    refine ⟨rfl, ?_⟩
    show getFile (appendFile _ _ _) _ = _
    rw [getFile_appendFile_same]
  · intro hcross
    have hcannei : canLogName env.newId ≠ imuLogName env.newId :=
      canLogName_ne_imuLogName _ _
    have holdne3 : imuLogName s.currentSessionId ≠ canLogName env.newId :=
      Ne.symm (canLogName_ne_imuLogName _ _)
    have hrun : logImuData now env sampleCsv s
        = writeImuLine now sampleCsv
            { s with canOpen := some (canLogName env.newId),
                     imuOpen := some (imuLogName env.newId),
                     currentSessionId := env.newId,
                     logFileSize := 0, imuLogFileSize := 0,
                     storage := setFile (setFile s.storage (canLogName env.newId)
                                  (canHeader ++ crlf)) (imuLogName env.newId)
                                  (imuHeader ++ crlf) } := by
      unfold logImuData
      rw [if_neg (by simp [hen, himu]), if_pos hcross]
      obtain ⟨newId, canOk, imuOk⟩ := env
      cases hok1
      cases hok2
      rw [rotateLogFiles_ok]
    rw [hrun, writeImuLine_eq _ now sampleCsv (imuLogName env.newId) rfl]
    refine ⟨rfl, rfl, rfl, ?_, ?_, ?_⟩
    · show getFile (appendFile _ _ _) _ = _
      rw [getFile_appendFile_same, getFile_setFile_same]
    · show getFile (appendFile _ _ _) _ = _
      rw [getFile_appendFile_ne _ _ _ _ hcannei, getFile_setFile_ne _ _ _ _ hcannei,
        getFile_setFile_same]
    · show getFile (appendFile _ _ _) _ = _
      rw [getFile_appendFile_ne _ _ _ _ himune, getFile_setFile_ne _ _ _ _ himune,
        getFile_setFile_ne _ _ _ _ holdne3]
  · intro hsz
    rw [logImuData_write s now env sampleCsv _ hen himu hsz]
    refine ⟨rfl, ?_⟩
    show getFile (appendFile _ _ _) _ = _
    rw [getFile_appendFile_same]

/-- Witness for C1: in a small active session with both sizes below the
threshold, a bus-frame append and a motion-sample append each leave the
session id unchanged and append their formatted row to the current
session's own stream file. -/
theorem c1_rotation_semantics_witness :
    (logCanFrame 1000 ⟨"FFFFFF", true, true⟩ "TX" 2015 8 [2, 1, 13, 85, 85, 85, 85, 85]
        { initSDState with
            sdLoggingEnabled := true
            canOpen := some (canLogName "AB12CD")
            imuOpen := some (imuLogName "AB12CD")
            currentSessionId := "AB12CD"
            storage := [(canLogName "AB12CD", canHeader ++ crlf),
                        (imuLogName "AB12CD", imuHeader ++ crlf)] }).currentSessionId
      = "AB12CD" ∧
    getFile (logCanFrame 1000 ⟨"FFFFFF", true, true⟩ "TX" 2015 8 [2, 1, 13, 85, 85, 85, 85, 85]
        { initSDState with
            sdLoggingEnabled := true
            canOpen := some (canLogName "AB12CD")
            imuOpen := some (imuLogName "AB12CD")
            currentSessionId := "AB12CD"
            storage := [(canLogName "AB12CD", canHeader ++ crlf),
                        (imuLogName "AB12CD", imuHeader ++ crlf)] }).storage
        (canLogName "AB12CD")
      = getFile [(canLogName "AB12CD", canHeader ++ crlf),
                 (imuLogName "AB12CD", imuHeader ++ crlf)] (canLogName "AB12CD")
          ++ (canLogLine 1000 "TX" 2015 8 [2, 1, 13, 85, 85, 85, 85, 85] ++ crlf) ∧
    (logImuData 1000 ⟨"FFFFFF", true, true⟩ "0.0076,0.0154,0.9981,0.1221,-0.0916,0.0305"
        { initSDState with
            sdLoggingEnabled := true
            canOpen := some (canLogName "AB12CD")
            imuOpen := some (imuLogName "AB12CD")
            currentSessionId := "AB12CD"
            storage := [(canLogName "AB12CD", canHeader ++ crlf),
                        (imuLogName "AB12CD", imuHeader ++ crlf)] }).currentSessionId
      = "AB12CD" ∧
    getFile (logImuData 1000 ⟨"FFFFFF", true, true⟩
        "0.0076,0.0154,0.9981,0.1221,-0.0916,0.0305"
        { initSDState with
            sdLoggingEnabled := true
            canOpen := some (canLogName "AB12CD")
            imuOpen := some (imuLogName "AB12CD")
            currentSessionId := "AB12CD"
            storage := [(canLogName "AB12CD", canHeader ++ crlf),
                        (imuLogName "AB12CD", imuHeader ++ crlf)] }).storage
        (imuLogName "AB12CD")
      = getFile [(canLogName "AB12CD", canHeader ++ crlf),
                 (imuLogName "AB12CD", imuHeader ++ crlf)] (imuLogName "AB12CD")
          ++ (toString 1000 ++ "," ++ "0.0076,0.0154,0.9981,0.1221,-0.0916,0.0305"
              ++ "\n") := by
  have h := c1_rotation_semantics
    { initSDState with
        sdLoggingEnabled := true
        canOpen := some (canLogName "AB12CD")
        imuOpen := some (imuLogName "AB12CD")
        currentSessionId := "AB12CD"
        storage := [(canLogName "AB12CD", canHeader ++ crlf),
                    (imuLogName "AB12CD", imuHeader ++ crlf)] }
    1000 ⟨"FFFFFF", true, true⟩ "TX" 2015 8 [2, 1, 13, 85, 85, 85, 85, 85]
    "0.0076,0.0154,0.9981,0.1221,-0.0916,0.0305" rfl rfl rfl rfl rfl (by decide)
  exact ⟨(h.2.1 (by decide)).1, (h.2.1 (by decide)).2,
    (h.2.2.2 (by decide)).1, (h.2.2.2 (by decide)).2⟩

/-! ### C7: log row format

Spec-side rendering, written from the spec's words for the refinement
comparison: `timestamp_ms,type,id,length,data_hex` with `type ∈
{TX,RX}`, the id printed as `0x` followed by uppercase hexadecimal, and
`data_hex` the payload as space-separated two-digit uppercase
hexadecimal bytes. -/

/-- Value of one hexadecimal digit character. -/
def hexCharVal (c : Char) : Nat :=
  if c.toNat ≥ 65 then c.toNat - 55 else c.toNat - 48

/-- Value of a big-endian hexadecimal digit string. -/
def parseHexChars (l : List Char) : Nat :=
  l.foldl (fun a c => 16 * a + hexCharVal c) 0

/-- The sixteen uppercase hexadecimal digit characters. -/
def upperHexDigits : List Char :=
  ['0', '1', '2', '3', '4', '5', '6', '7', '8', '9', 'A', 'B', 'C', 'D', 'E', 'F']

/-- Spec-side rendering of one payload byte: two-digit uppercase hex. -/
def specByteHex (b : Nat) : String :=
  pad0 2 (hexStr b)

/-- Spec-side rendering of the `data_hex` field. -/
def specDataHex (data : List Nat) : String :=
  String.intercalate " " (data.map specByteHex)

lemma hexCharVal_hexDigitChar : ∀ n, n < 16 → hexCharVal (hexDigitChar n) = n := by decide

lemma hexDigitChar_mem : ∀ n, n < 16 → hexDigitChar n ∈ upperHexDigits := by decide

lemma parse_snoc (l : List Char) (c : Char) :
    parseHexChars (l ++ [c]) = 16 * parseHexChars l + hexCharVal c := by
  simp [parseHexChars, List.foldl_append]

lemma parse_cons_zero (t : List Char) : parseHexChars ('0' :: t) = parseHexChars t := by
  have h0 : hexCharVal '0' = 0 := by decide
  simp [parseHexChars, h0]

lemma parse_zeros (k : Nat) (t : List Char) :
    parseHexChars (List.replicate k '0' ++ t) = parseHexChars t := by
  induction k with
  | zero => simp
  | succ m ih =>
      rw [List.replicate_succ, List.cons_append, parse_cons_zero]
      exact ih

lemma toHexListAux_parse : ∀ fuel n, n < fuel → parseHexChars (toHexListAux fuel n) = n := by
  intro fuel
  induction fuel with
  | zero => intro n h; omega
  | succ f ih =>
      intro n h
      unfold toHexListAux
      by_cases h16 : n < 16
      · rw [if_pos h16]
        have hv := hexCharVal_hexDigitChar n h16
        simp [parseHexChars, hv]
      · rw [if_neg h16, parse_snoc, ih (n / 16) (by omega),
          hexCharVal_hexDigitChar (n % 16) (Nat.mod_lt _ (by omega))]
        omega

lemma toHexList_parse (n : Nat) : parseHexChars (toHexList n) = n :=
  toHexListAux_parse (n + 1) n (by omega)

lemma toHexListAux_upper : ∀ fuel n, ∀ c ∈ toHexListAux fuel n, c ∈ upperHexDigits := by
  intro fuel
  induction fuel with
  | zero => intro n c hc; simp [toHexListAux] at hc
  | succ f ih =>
      intro n c hc
      unfold toHexListAux at hc
      by_cases h16 : n < 16
      · rw [if_pos h16] at hc
        simp at hc
        subst hc
        exact hexDigitChar_mem n h16
      · rw [if_neg h16, List.mem_append] at hc
        rcases hc with hc | hc
        · exact ih (n / 16) c hc
        · simp at hc
          subst hc
          exact hexDigitChar_mem _ (Nat.mod_lt _ (by omega))

lemma toHexListAux_ne_nil : ∀ fuel n, 0 < fuel → toHexListAux fuel n ≠ [] := by
  intro fuel n h
  cases fuel with
  | zero => omega
  | succ f =>
      unfold toHexListAux
      by_cases h16 : n < 16
      · simp [h16]
      · simp [h16]

lemma pad0_data (w : Nat) (s : String) :
    (pad0 w s).data = List.replicate (w - s.length) '0' ++ s.data := by
  simp [pad0]

lemma hexStr_data (n : Nat) : (hexStr n).data = toHexList n := rfl

/-- The id field printed by `printf("0x%03lX")`: nonempty, every
character an uppercase hexadecimal digit, and it reads back as the id. -/
lemma idField_spec (id : Nat) :
    (pad0 3 (hexStr id)).data ≠ [] ∧
    (∀ c ∈ (pad0 3 (hexStr id)).data, c ∈ upperHexDigits) ∧
    parseHexChars (pad0 3 (hexStr id)).data = id := by
  rw [pad0_data, hexStr_data]
  refine ⟨?_, ?_, ?_⟩
  · intro hnil
    rcases List.append_eq_nil.mp hnil with ⟨_, h2⟩
    exact toHexListAux_ne_nil _ _ (by omega) h2
  · intro c hc
    rcases List.mem_append.mp hc with hc | hc
    · rw [List.eq_of_mem_replicate hc]
      decide
    · exact toHexListAux_upper _ _ c hc
  · rw [parse_zeros]
    exact toHexList_parse id

lemma printHexByte_eq_specByteHex : ∀ b, b < 256 → printHexByte b = specByteHex b := by decide

lemma specByteHex_spec : ∀ b, b < 256 →
    (specByteHex b).length = 2 ∧ (∀ c ∈ (specByteHex b).data, c ∈ upperHexDigits) ∧
    parseHexChars (specByteHex b).data = b := by decide

/-- The row built by `logCanFrame` coincides with the spec-side
rendering whenever the payload really is bytes. -/
lemma canLogLine_spec (now : Nat) (ty : String) (id : Nat) (data : List Nat)
    (hbytes : ∀ b ∈ data, b < 256) :
    canLogLine now ty id data.length data
      = toString now ++ "," ++ ty ++ ",0x" ++ pad0 3 (hexStr id) ++ ","
        ++ toString data.length ++ "," ++ specDataHex data := by
  have hmap : List.map printHexByte data = List.map specByteHex data :=
    List.map_congr_left fun b hb => printHexByte_eq_specByteHex b (hbytes b hb)
  unfold canLogLine dataHex specDataHex
  rw [List.take_length, hmap]

/-- C7: every row appended to the bus-frame log by `logCanFrame` has
the form `timestamp_ms,type,id,length,data_hex` where the type is the
TX/RX tag passed by the two call sites, the id field is `0x` followed
by a nonempty string of uppercase hexadecimal digits reading back as
the id, and `data_hex` renders the payload as space-separated two-digit
uppercase hexadecimal bytes; in particular, appending a TX frame
`{id 0x7DF, len 8, data 02 01 0D 55 55 55 55 55}` at `t = 1000` yields
the line `1000,TX,0x7DF,8,02 01 0D 55 55 55 55 55`. -/
theorem c7_bus_log_row_format (s : SDState) (now : Nat) (env : RotEnv) (id : Nat)
    (data : List Nat) (ty : String) (name : String)
    (hty : ty = "TX" ∨ ty = "RX") (hbytes : ∀ b ∈ data, b < 256)
    (hen : s.sdLoggingEnabled = true) (hcan : s.canOpen = some name)
    (hsz : ¬(s.logFileSize > maxLogFileSize ∨ s.imuLogFileSize > maxLogFileSize)) :
    getFile (logCanFrame now env ty id data.length data s).storage name
      = getFile s.storage name
          ++ (toString now ++ "," ++ ty ++ ",0x" ++ pad0 3 (hexStr id) ++ ","
              ++ toString data.length ++ "," ++ specDataHex data ++ crlf) ∧
    (pad0 3 (hexStr id)).data ≠ [] ∧
    (∀ c ∈ (pad0 3 (hexStr id)).data, c ∈ upperHexDigits) ∧
    parseHexChars (pad0 3 (hexStr id)).data = id ∧
    (∀ b ∈ data, (specByteHex b).length = 2 ∧ (∀ c ∈ (specByteHex b).data, c ∈ upperHexDigits) ∧
      parseHexChars (specByteHex b).data = b) ∧
    canLogLine 1000 "TX" 2015 8 [2, 1, 13, 85, 85, 85, 85, 85]
      = "1000,TX,0x7DF,8,02 01 0D 55 55 55 55 55" := by
  obtain ⟨hnil, hupper, hparse⟩ := idField_spec id
  refine ⟨?_, hnil, hupper, hparse, ?_, by decide⟩
  · rw [logCanFrame_write s now env ty id data.length data name hen hcan hsz]
    show getFile (appendFile _ _ _) _ = _
    rw [getFile_appendFile_same, canLogLine_spec now ty id data hbytes]
  · intro b hb
    exact specByteHex_spec b (hbytes b hb)

/-- Witness for C7: in a concrete active session, appending the example
TX frame at `t = 1000` appends exactly the example row (plus CRLF), and
the id/byte fields satisfy the format constraints. -/
theorem c7_bus_log_row_format_witness :
    getFile (logCanFrame 1000 ⟨"FFFFFF", true, true⟩ "TX" 2015 8 [2, 1, 13, 85, 85, 85, 85, 85]
        { initSDState with
            sdLoggingEnabled := true
            canOpen := some (canLogName "C0FFEE")
            imuOpen := some (imuLogName "C0FFEE")
            currentSessionId := "C0FFEE"
            storage := [(canLogName "C0FFEE", canHeader ++ crlf),
                        (imuLogName "C0FFEE", imuHeader ++ crlf)] }).storage
        (canLogName "C0FFEE")
      = getFile [(canLogName "C0FFEE", canHeader ++ crlf),
                 (imuLogName "C0FFEE", imuHeader ++ crlf)] (canLogName "C0FFEE")
          ++ (toString 1000 ++ "," ++ "TX" ++ ",0x" ++ pad0 3 (hexStr 2015) ++ ","
              ++ toString 8 ++ "," ++ specDataHex [2, 1, 13, 85, 85, 85, 85, 85] ++ crlf) ∧
    (pad0 3 (hexStr 2015)).data ≠ [] ∧
    (∀ c ∈ (pad0 3 (hexStr 2015)).data, c ∈ upperHexDigits) ∧
    parseHexChars (pad0 3 (hexStr 2015)).data = 2015 ∧
    (∀ b ∈ [2, 1, 13, 85, 85, 85, 85, 85],
      (specByteHex b).length = 2 ∧ (∀ c ∈ (specByteHex b).data, c ∈ upperHexDigits) ∧
      parseHexChars (specByteHex b).data = b) ∧
    canLogLine 1000 "TX" 2015 8 [2, 1, 13, 85, 85, 85, 85, 85]
      = "1000,TX,0x7DF,8,02 01 0D 55 55 55 55 55" :=
  c7_bus_log_row_format _ 1000 ⟨"FFFFFF", true, true⟩ 2015 [2, 1, 13, 85, 85, 85, 85, 85]
    "TX" (canLogName "C0FFEE") (Or.inl rfl) (by decide) rfl rfl (by decide)

/-! ### Receive ring buffer (rxLog, 5 slots) -/

/-- One CAN frame as stored by the firmware. -/
structure CanMessage where
  id : Nat
  len : Nat
  data : List Nat
deriving DecidableEq

/-- The all-zero message `memset` leaves in `rxLog` slots (`len = 0`
marks an empty slot). -/
def emptyMessage : CanMessage :=
  { id := 0, len := 0, data := [] }

instance : Inhabited CanMessage := ⟨emptyMessage⟩

/-- One store into the ring: `rxLog[rxLogIndex] = m; rxLogIndex = (rxLogIndex + 1) % 5`. -/
def rxPush (buf : List CanMessage) (idx : Nat) (m : CanMessage) : List CanMessage × Nat :=
  (buf.set idx m, (idx + 1) % 5)

/-- Iterated ring stores, oldest frame first. -/
def rxPushAll : List CanMessage × Nat → List CanMessage → List CanMessage × Nat
  | s, [] => s
  | (buf, idx), m :: rest => rxPushAll (rxPush buf idx m) rest

/-- The ring's contents read oldest-first starting at the write index. -/
def ringList (buf : List CanMessage) (idx : Nat) : List CanMessage :=
  (List.range 5).map fun i => buf.getD ((idx + i) % 5) emptyMessage

lemma ringList_length (buf : List CanMessage) (idx : Nat) : (ringList buf idx).length = 5 := by
  simp [ringList]

lemma ringList_push (buf : List CanMessage) (h : buf.length = 5) (idx : Nat) (hidx : idx < 5)
    (m : CanMessage) :
    ringList (buf.set idx m) ((idx + 1) % 5) = (ringList buf idx).drop 1 ++ [m] := by
  rcases buf with _ | ⟨a, _ | ⟨b, _ | ⟨c, _ | ⟨d, _ | ⟨e, _ | ⟨f, t⟩⟩⟩⟩⟩⟩ <;>
    simp only [List.length_cons, List.length_nil] at h <;>
    try omega
  interval_cases idx <;> rfl

lemma rxPushAll_spec (ms : List CanMessage) : ∀ (buf : List CanMessage) (idx : Nat),
    buf.length = 5 → idx < 5 →
    (rxPushAll (buf, idx) ms).1.length = 5 ∧
    (rxPushAll (buf, idx) ms).2 = (idx + ms.length) % 5 ∧
    ringList (rxPushAll (buf, idx) ms).1 (rxPushAll (buf, idx) ms).2
      = (ringList buf idx ++ ms).drop ms.length := by
  induction ms with
  | nil =>
      intro buf idx h hidx
      exact ⟨h, by simp [rxPushAll, Nat.mod_eq_of_lt hidx], by simp [rxPushAll]⟩
  | cons m rest ih =>
      intro buf idx h hidx
      have hstep := ringList_push buf h idx hidx m
      have hlen' : (buf.set idx m).length = 5 := by simp [h]
      have hidx' : (idx + 1) % 5 < 5 := Nat.mod_lt _ (by omega)
      obtain ⟨ih1, ih2, ih3⟩ := ih (buf.set idx m) ((idx + 1) % 5) hlen' hidx'
      have hunfold : rxPushAll (buf, idx) (m :: rest)
          = rxPushAll (buf.set idx m, (idx + 1) % 5) rest := rfl
      refine ⟨by rw [hunfold]; exact ih1, ?_, ?_⟩
      · rw [hunfold, ih2, List.length_cons]
        omega
      · rw [hunfold, ih3, hstep]
        have h1 : (ringList buf idx ++ m :: rest).drop (m :: rest).length
            = ((ringList buf idx ++ m :: rest).drop 1).drop rest.length := by
          rw [List.drop_drop]
          congr 1
          simp
          omega
        have h2 : (ringList buf idx ++ m :: rest).drop 1
            = (ringList buf idx).drop 1 ++ m :: rest := by
          rw [List.drop_append_of_le_length (by rw [ringList_length]; omega)]
        rw [h1, h2, List.append_assoc, List.singleton_append]

/-- C4: after any sequence of `N > 5` received frames is pushed through
the 5-slot receive ring, the buffer still holds exactly 5 entries, the
write index has advanced by `N` modulo 5, and reading the ring from the
write index yields exactly the last 5 frames in arrival order (each
store overwrites the oldest slot). -/
theorem c4_ring_last_five (frames buf : List CanMessage) (idx : Nat)
    (hbuf : buf.length = 5) (hidx : idx < 5) (hN : frames.length > 5) :
    (rxPushAll (buf, idx) frames).1.length = 5 ∧
    (rxPushAll (buf, idx) frames).2 = (idx + frames.length) % 5 ∧
    ringList (rxPushAll (buf, idx) frames).1 (rxPushAll (buf, idx) frames).2
      = frames.drop (frames.length - 5) := by
  obtain ⟨h1, h2, h3⟩ := rxPushAll_spec frames buf idx hbuf hidx
  refine ⟨h1, h2, ?_⟩
  rw [h3, List.drop_append_eq_append_drop,
    List.drop_eq_nil_of_le (by rw [ringList_length]; omega), List.nil_append, ringList_length]

/-- Witness for C4: pushing six concrete frames through the zeroed ring
leaves the 5-slot buffer holding frames 2–6 in order, with the index
wrapped to 1. -/
theorem c4_ring_last_five_witness :
    (rxPushAll (List.replicate 5 emptyMessage, 0)
        [⟨1, 1, [1]⟩, ⟨2, 1, [2]⟩, ⟨3, 1, [3]⟩, ⟨4, 1, [4]⟩, ⟨5, 1, [5]⟩, ⟨6, 1, [6]⟩]).1.length
      = 5 ∧
    (rxPushAll (List.replicate 5 emptyMessage, 0)
        [⟨1, 1, [1]⟩, ⟨2, 1, [2]⟩, ⟨3, 1, [3]⟩, ⟨4, 1, [4]⟩, ⟨5, 1, [5]⟩, ⟨6, 1, [6]⟩]).2
      = (0 + ([⟨1, 1, [1]⟩, ⟨2, 1, [2]⟩, ⟨3, 1, [3]⟩, ⟨4, 1, [4]⟩, ⟨5, 1, [5]⟩,
          (⟨6, 1, [6]⟩ : CanMessage)]).length) % 5 ∧
    ringList (rxPushAll (List.replicate 5 emptyMessage, 0)
        [⟨1, 1, [1]⟩, ⟨2, 1, [2]⟩, ⟨3, 1, [3]⟩, ⟨4, 1, [4]⟩, ⟨5, 1, [5]⟩, ⟨6, 1, [6]⟩]).1
      (rxPushAll (List.replicate 5 emptyMessage, 0)
        [⟨1, 1, [1]⟩, ⟨2, 1, [2]⟩, ⟨3, 1, [3]⟩, ⟨4, 1, [4]⟩, ⟨5, 1, [5]⟩, ⟨6, 1, [6]⟩]).2
      = ([⟨1, 1, [1]⟩, ⟨2, 1, [2]⟩, ⟨3, 1, [3]⟩, ⟨4, 1, [4]⟩, ⟨5, 1, [5]⟩,
          (⟨6, 1, [6]⟩ : CanMessage)]).drop
          (([⟨1, 1, [1]⟩, ⟨2, 1, [2]⟩, ⟨3, 1, [3]⟩, ⟨4, 1, [4]⟩, ⟨5, 1, [5]⟩,
            (⟨6, 1, [6]⟩ : CanMessage)]).length - 5) :=
  c4_ring_last_five _ _ 0 (by decide) (by decide) (by decide)

/-! ### Whole-system state and the main loop (part_000)

The loop's phases, in source order: receive drain (gated only on the
interrupt flag), periodic transmit (gated only on `sendingEnabled` and
the 1 s timer), 10 Hz IMU logging (gated only on `sdLoggingEnabled` and
the 100 ms timer), the three buttons and the touch screen, the idle
power-down check, and finally the 100 ms display refresh which alone is
gated on `screenOn`. -/

/-- The display cache: `displayInitialized` plus every `last*`
global/static the redraw diffing uses. -/
structure DispCache where
  displayInitialized : Bool
  lastBatPercent : Int
  lastCharging : Bool
  lastTxCount : Nat
  lastRxCount : Nat
  lastSendingState : Bool
  lastSDLoggingState : Bool
  buttonsDrawn : Bool
  lastSDState : Bool
  lastSDInit : Bool
  lastFastCharge : Bool
deriving DecidableEq

/-- The power/display substate: everything `setScreenOn`, `wakeScreen`,
`toggleScreen` and `updatePowerSaving` touch. -/
structure ScreenState where
  screenOn : Bool
  powerSaveMode : Bool
  currentBrightness : Nat
  lastActivityTime : Nat
  lastDisplayUpdate : Nat
  cache : DispCache
deriving DecidableEq

/-- All part_000 globals. -/
structure SysState where
  canMsgReceived : Bool
  txCount : Nat
  rxCount : Nat
  lastTxTime : Nat
  sendingEnabled : Bool
  rxLog : List CanMessage
  rxLogIndex : Nat
  lastTx : CanMessage
  sd : SDState
  scr : ScreenState
deriving DecidableEq

/-- Replace the screen substate. -/
def setScr (s : SysState) (z : ScreenState) : SysState :=
  { s with scr := z }

/-- Observable bus/logging effects of one loop tick. -/
inductive Ev
  | rxStore (m : CanMessage)
  | rxLogCall (m : CanMessage)
  | clearFlag
  | busSend (m : CanMessage)
  | txLogCall (m : CanMessage)
  | txSendError
  | imuAppend
deriving DecidableEq

/-- The single TX frame of part_000 (OBD-II speed request). -/
def canFrameConst : CanMessage :=
  { id := 2015, len := 8, data := [2, 1, 13, 85, 85, 85, 85, 85] }

/-- Default per-frame oracle when the supplied list runs short. -/
def defaultEnv : RotEnv :=
  { newId := "", canOk := true, imuOk := true }

/-- `receiveCanMessages`: drain every pending frame — store it in the
ring, bump the RX counter, hand it to `logCanFrame` — then clear the
interrupt flag once, after the drain. -/
def receiveCanMessages : Nat → List CanMessage → List RotEnv → SysState → SysState × List Ev
  | _, [], _, s => ({ s with canMsgReceived := false }, [Ev.clearFlag])
  | now, m :: rest, envs, s =>
      let s1 := { s with
        rxLog := s.rxLog.set s.rxLogIndex m
        rxLogIndex := (s.rxLogIndex + 1) % 5
        rxCount := s.rxCount + 1
        sd := logCanFrame now (envs.headD defaultEnv) "RX" m.id m.len m.data s.sd }
      let r := receiveCanMessages now rest envs.tail s1
      (r.1, Ev.rxStore m :: Ev.rxLogCall m :: r.2)

/-- The SD states the logger passes through while a drain hands it the
frames one at a time, in arrival order. -/
def logCanAll : Nat → List CanMessage → List RotEnv → SDState → SDState
  | _, [], _, sd => sd
  | now, m :: rest, envs, sd =>
      logCanAll now rest envs.tail
        (logCanFrame now (envs.headD defaultEnv) "RX" m.id m.len m.data sd)

/-- Receive phase of the loop: the drain runs iff the interrupt flag is
set. -/
def rxPhase (now : Nat) (pending : List CanMessage) (envs : List RotEnv) (s : SysState) :
    SysState × List Ev :=
  if s.canMsgReceived = true then receiveCanMessages now pending envs s else (s, [])

/-- `sendCanMessage`: fire the fixed frame at the controller; on success
bump the TX counter, record the frame and hand it to `logCanFrame`; on
failure only a serial debug line is emitted and nothing is retried. -/
def sendCanMessage (now : Nat) (result : Bool) (env : RotEnv) (s : SysState) :
    SysState × List Ev :=
  if result = true then
    ({ s with txCount := s.txCount + 1
              lastTx := canFrameConst
              sd := logCanFrame now env "TX" canFrameConst.id canFrameConst.len
                      canFrameConst.data s.sd },
     [Ev.busSend canFrameConst, Ev.txLogCall canFrameConst])
  else
    (s, [Ev.busSend canFrameConst, Ev.txSendError])

/-- Transmit phase: fire once per second while enabled. -/
def txPhase (now : Nat) (result : Bool) (env : RotEnv) (s : SysState) : SysState × List Ev :=
  if s.sendingEnabled = true ∧ now - s.lastTxTime ≥ 1000 then
    sendCanMessage now result env { s with lastTxTime := now }
  else
    (s, [])

/-- IMU phase: sample and append at 10 Hz while logging is enabled. -/
def imuPhase (now : Nat) (sampleCsv : String) (env : RotEnv) (s : SysState) :
    SysState × List Ev :=
  if s.sd.sdLoggingEnabled = true ∧ now - s.sd.lastImuLogTime ≥ 100 then
    ({ s with sd := { logImuData now env sampleCsv s.sd with lastImuLogTime := now } },
     [Ev.imuAppend])
  else
    (s, [])

/-- The three bus/logging phases of the loop, in source order. -/
def busPhases (now : Nat) (pending : List CanMessage) (rxEnvs : List RotEnv)
    (sendResult : Bool) (txEnv : RotEnv) (imuCsv : String) (imuEnv : RotEnv)
    (s : SysState) : SysState × List Ev :=
  let r1 := rxPhase now pending rxEnvs s
  let r2 := txPhase now sendResult txEnv r1.1
  let r3 := imuPhase now imuCsv imuEnv r2.1
  (r3.1, r1.2 ++ r2.2 ++ r3.2)

/-- `wakeScreen`: reset the idle timer; if the screen was off, power it
back on and force a full redraw. -/
def wakeScreen (now : Nat) (scr : ScreenState) : ScreenState :=
  let scr1 := { scr with lastActivityTime := now }
  if scr1.screenOn = false then
    { scr1 with screenOn := true, currentBrightness := 100, powerSaveMode := false,
                cache := { scr1.cache with displayInitialized := false } }
  else
    scr1

/-- `toggleScreen`. -/
def toggleScreenOp (now : Nat) (scr : ScreenState) : ScreenState :=
  let scr1 := { scr with lastActivityTime := now }
  if scr1.screenOn = true then
    { scr1 with screenOn := false, currentBrightness := 0, powerSaveMode := true }
  else
    { scr1 with screenOn := true, currentBrightness := 100, powerSaveMode := false,
                cache := { scr1.cache with displayInitialized := false } }

/-- The button/touch section of the loop, in source order (A, B, C,
touch). -/
def buttonPhase (now : Nat) (btnA btnB btnC touch : Bool) (env : RotEnv) (s : SysState) :
    SysState :=
  let s := if btnA = true then
      let s1 := { s with scr := wakeScreen now s.scr }
      if s1.scr.powerSaveMode = true then
        { s1 with scr := { s1.scr with powerSaveMode := false } }
      else
        let s2 := { s1 with sendingEnabled := !s1.sendingEnabled }
        if s2.sendingEnabled = true then { s2 with lastTxTime := now } else s2
    else s
  let s := if btnB = true then { s with scr := toggleScreenOp now s.scr } else s
  let s := if btnC = true then
      let s1 := { s with scr := wakeScreen now s.scr }
      if s1.scr.powerSaveMode = false then
        { s1 with sd := toggleSDLogging now env s1.sd }
      else s1
    else s
  if touch = true then
    if s.scr.screenOn = false then { s with scr := wakeScreen now s.scr }
    else { s with scr := { s.scr with lastActivityTime := now } }
  else s

/-- `updatePowerSaving`: switch the screen off after 15 s of idle. -/
def powerPhase (now : Nat) (s : SysState) : SysState :=
  if s.scr.screenOn = true ∧ now - s.scr.lastActivityTime > 15000 ∧
      s.scr.powerSaveMode = false then
    { s with scr := { s.scr with screenOn := false, currentBrightness := 0,
                                 powerSaveMode := true } }
  else s

/-! ### Display refresh (updateDisplay and its sub-updates) -/

/-- The live values the display functions read. -/
structure LiveView where
  canOk : Bool
  batPercent : Int
  isCharging : Bool
  txCount : Nat
  rxCount : Nat
  sendingEnabled : Bool
  sdLoggingEnabled : Bool
  sdInitialized : Bool
deriving DecidableEq

/-- The discrete visual elements a refresh may redraw. -/
inductive Widget
  | staticElements
  | canLed
  | sdIcon
  | fastCharge
  | battery
  | txSection
  | rxView
  | btnPlay
  | btnScreen
  | btnSdRec
deriving DecidableEq

/-- `updateHeader`: the CAN LED is drawn on every call; the SD icon,
fast-charge glyph and battery widget only when their cached values
differ from the live ones. -/
def updateHeader (live : LiveView) (c : DispCache) : DispCache × List Widget :=
  let ws : List Widget := [Widget.canLed]
  let r1 := if live.sdLoggingEnabled ≠ c.lastSDState ∨ live.sdInitialized ≠ c.lastSDInit then
      ({ c with lastSDState := live.sdLoggingEnabled, lastSDInit := live.sdInitialized },
       ws ++ [Widget.sdIcon])
    else (c, ws)
  let r2 := if live.isCharging ≠ r1.1.lastFastCharge then
      ({ r1.1 with lastFastCharge := live.isCharging }, r1.2 ++ [Widget.fastCharge])
    else r1
  if live.batPercent ≠ r2.1.lastBatPercent ∨ live.isCharging ≠ r2.1.lastCharging then
    ({ r2.1 with lastBatPercent := live.batPercent, lastCharging := live.isCharging },
     r2.2 ++ [Widget.battery])
  else r2

/-- `updateTxSection`: redrawn iff the TX counter moved. -/
def updateTxSection (live : LiveView) (c : DispCache) : DispCache × List Widget :=
  if live.txCount ≠ c.lastTxCount then
    ({ c with lastTxCount := live.txCount }, [Widget.txSection])
  else (c, [])

/-- `updateRxLog` (the on-screen RX list): redrawn iff the RX counter
moved. -/
def updateRxView (live : LiveView) (c : DispCache) : DispCache × List Widget :=
  if live.rxCount = c.lastRxCount then (c, [])
  else ({ c with lastRxCount := live.rxCount }, [Widget.rxView])

/-- `updateButtons`: each button redrawn on the first pass or when its
backing flag changed; the SCREEN button only on the first pass. -/
def updateButtons (live : LiveView) (c : DispCache) : DispCache × List Widget :=
  let sendChanged := live.sendingEnabled ≠ c.lastSendingState
  let sdChanged := live.sdLoggingEnabled ≠ c.lastSDLoggingState
  let r1 := if c.buttonsDrawn = false ∨ sendChanged then
      ({ c with lastSendingState := live.sendingEnabled }, [Widget.btnPlay])
    else (c, [])
  let r2 := if c.buttonsDrawn = false then (r1.1, r1.2 ++ [Widget.btnScreen]) else r1
  let r3 := if c.buttonsDrawn = false ∨ sdChanged then
      ({ r2.1 with lastSDLoggingState := live.sdLoggingEnabled }, r2.2 ++ [Widget.btnSdRec])
    else r2
  ({ r3.1 with buttonsDrawn := true }, r3.2)

/-- `updateDisplay`: on the first call after initialization or a wake
(`displayInitialized = false`) the static chrome is drawn and the cached
values are forced (`-1`, `0`, `0`, negated flags, buttons undrawn), then
the four partial updates run. -/
def updateDisplay (live : LiveView) (c : DispCache) : DispCache × List Widget :=
  let r0 := if c.displayInitialized = false then
      ({ c with displayInitialized := true, lastBatPercent := -1, lastTxCount := 0,
                lastRxCount := 0, lastSendingState := !live.sendingEnabled,
                lastSDLoggingState := !live.sdLoggingEnabled, buttonsDrawn := false },
       [Widget.staticElements])
    else (c, [])
  let r1 := updateHeader live r0.1
  let r2 := updateTxSection live r1.1
  let r3 := updateRxView live r2.1
  let r4 := updateButtons live r3.1
  (r4.1, r0.2 ++ r1.2 ++ r2.2 ++ r3.2 ++ r4.2)

/-- The live values the loop hands the display code on a tick. -/
def mkLive (canOk : Bool) (batPercent : Int) (isCharging : Bool) (s : SysState) : LiveView :=
  { canOk := canOk
    batPercent := batPercent
    isCharging := isCharging
    txCount := s.txCount
    rxCount := s.rxCount
    sendingEnabled := s.sendingEnabled
    sdLoggingEnabled := s.sd.sdLoggingEnabled
    sdInitialized := s.sd.sdInitialized }

/-- Display phase of the loop: refresh every 100 ms, and only while the
screen is on; the second component reports whether a refresh ran. -/
def displayPhase (now : Nat) (live : LiveView) (s : SysState) : SysState × Bool :=
  if s.scr.screenOn = true ∧ now - s.scr.lastDisplayUpdate ≥ 100 then
    ({ s with scr := { s.scr with lastDisplayUpdate := now,
                                  cache := (updateDisplay live s.scr.cache).1 } }, true)
  else (s, false)

/-- Per-tick inputs: clock, controller queue, oracles, user input,
battery telemetry. -/
structure TickInput where
  now : Nat
  pending : List CanMessage
  rxEnvs : List RotEnv
  sendResult : Bool
  txEnv : RotEnv
  imuCsv : String
  imuEnv : RotEnv
  btnA : Bool
  btnB : Bool
  btnC : Bool
  btnEnv : RotEnv
  touch : Bool
  batPercent : Int
  isCharging : Bool
  canOk : Bool
deriving DecidableEq

/-- One pass of `loop()`: receive, transmit, IMU log, buttons/touch,
idle power-down, display refresh; returns the bus/log event trace and
whether the display refreshed. -/
def loopTick (inp : TickInput) (s : SysState) : SysState × List Ev × Bool :=
  let rb := busPhases inp.now inp.pending inp.rxEnvs inp.sendResult inp.txEnv
              inp.imuCsv inp.imuEnv s
  let s4 := buttonPhase inp.now inp.btnA inp.btnB inp.btnC inp.touch inp.btnEnv rb.1
  let s5 := powerPhase inp.now s4
  let rd := displayPhase inp.now (mkLive inp.canOk inp.batPercent inp.isCharging s5) s5
  (rd.1, rb.2, rd.2)

/-! ### C3: the drain loop -/

/-- Full characterisation of `receiveCanMessages`: every pending frame
is pushed through the ring and handed to the logger in arrival order,
the RX counter advances by the number of frames, and the flag is
cleared; the event trace interleaves a ring store and a logger call per
frame and ends with the single flag clear. -/
lemma receiveCanMessages_spec (now : Nat) (pending : List CanMessage) :
    ∀ (envs : List RotEnv) (s : SysState),
    receiveCanMessages now pending envs s
      = ({ s with canMsgReceived := false
                  rxCount := s.rxCount + pending.length
                  rxLog := (rxPushAll (s.rxLog, s.rxLogIndex) pending).1
                  rxLogIndex := (rxPushAll (s.rxLog, s.rxLogIndex) pending).2
                  sd := logCanAll now pending envs s.sd },
         (pending.flatMap fun m => [Ev.rxStore m, Ev.rxLogCall m]) ++ [Ev.clearFlag]) := by
  induction pending with
  | nil =>
      intro envs s
      simp [receiveCanMessages, rxPushAll, logCanAll]
  | cons m rest ih =>
      intro envs s
      simp only [receiveCanMessages]
      rw [ih]
      simp only [rxPushAll, rxPush, logCanAll, List.flatMap_cons, List.length_cons]
      rw [show s.rxCount + 1 + rest.length = s.rxCount + (rest.length + 1) from by omega]
      simp

lemma flatMap_count_clearFlag (pending : List CanMessage) :
    ((pending.flatMap fun m => [Ev.rxStore m, Ev.rxLogCall m]).count Ev.clearFlag) = 0 := by
  induction pending with
  | nil => rfl
  | cons m rest ih => simp [List.flatMap_cons, List.count_append, ih, List.count_cons]

/-- C3: when the interrupt flag is set and `n` frames are pending, one
receive-phase pass drains all `n` in arrival order — each frame is
stored in the ring and handed to the logger before the next frame is
processed — the RX counter advances by exactly `n`, the ring advances
through `rxPushAll`, the logger sees the frames in order, and the flag
is cleared exactly once, at the end of the trace. -/
theorem c3_drain_all_pending (now : Nat) (pending : List CanMessage) (envs : List RotEnv)
    (s : SysState) (hflag : s.canMsgReceived = true) :
    (rxPhase now pending envs s).1.rxCount = s.rxCount + pending.length ∧
    (rxPhase now pending envs s).2
      = (pending.flatMap fun m => [Ev.rxStore m, Ev.rxLogCall m]) ++ [Ev.clearFlag] ∧
    (rxPhase now pending envs s).1.canMsgReceived = false ∧
    ((rxPhase now pending envs s).1.rxLog, (rxPhase now pending envs s).1.rxLogIndex)
      = rxPushAll (s.rxLog, s.rxLogIndex) pending ∧
    (rxPhase now pending envs s).1.sd = logCanAll now pending envs s.sd ∧
    (rxPhase now pending envs s).2.count Ev.clearFlag = 1 ∧
    (rxPhase now pending envs s).2.getLast? = some Ev.clearFlag := by
  have hrx : rxPhase now pending envs s = receiveCanMessages now pending envs s := by
    unfold rxPhase
    rw [if_pos hflag]
  rw [hrx, receiveCanMessages_spec]
  refine ⟨rfl, rfl, rfl, rfl, rfl, ?_, ?_⟩
  · simp [List.count_append, flatMap_count_clearFlag]
  · simp [List.getLast?_concat]

/-- Witness for C3: a tick with the flag set and three queued frames
drains all three in order, advances the RX counter and ring by 3, hands
all three to the logger, and clears the flag once at the end. -/
theorem c3_drain_all_pending_witness :
    ((rxPhase 500 [⟨7, 1, [9]⟩, ⟨8, 1, [10]⟩, ⟨9, 1, [11]⟩] []
        { canMsgReceived := true, txCount := 0, rxCount := 0, lastTxTime := 0,
          sendingEnabled := false, rxLog := List.replicate 5 emptyMessage, rxLogIndex := 0,
          lastTx := emptyMessage, sd := initSDState,
          scr := { screenOn := true, powerSaveMode := false, currentBrightness := 100,
                   lastActivityTime := 0, lastDisplayUpdate := 0,
                   cache := { displayInitialized := false, lastBatPercent := -1,
                              lastCharging := false, lastTxCount := 0, lastRxCount := 0,
                              lastSendingState := true, lastSDLoggingState := false,
                              buttonsDrawn := false, lastSDState := false, lastSDInit := false,
                              lastFastCharge := false } } }).1.rxCount = 0 + 3) ∧
    ((rxPhase 500 [⟨7, 1, [9]⟩, ⟨8, 1, [10]⟩, ⟨9, 1, [11]⟩] []
        { canMsgReceived := true, txCount := 0, rxCount := 0, lastTxTime := 0,
          sendingEnabled := false, rxLog := List.replicate 5 emptyMessage, rxLogIndex := 0,
          lastTx := emptyMessage, sd := initSDState,
          scr := { screenOn := true, powerSaveMode := false, currentBrightness := 100,
                   lastActivityTime := 0, lastDisplayUpdate := 0,
                   cache := { displayInitialized := false, lastBatPercent := -1,
                              lastCharging := false, lastTxCount := 0, lastRxCount := 0,
                              lastSendingState := true, lastSDLoggingState := false,
                              buttonsDrawn := false, lastSDState := false, lastSDInit := false,
                              lastFastCharge := false } } }).2
      = [Ev.rxStore ⟨7, 1, [9]⟩, Ev.rxLogCall ⟨7, 1, [9]⟩, Ev.rxStore ⟨8, 1, [10]⟩,
         Ev.rxLogCall ⟨8, 1, [10]⟩, Ev.rxStore ⟨9, 1, [11]⟩, Ev.rxLogCall ⟨9, 1, [11]⟩,
         Ev.clearFlag]) := by
  have h := c3_drain_all_pending 500 [⟨7, 1, [9]⟩, ⟨8, 1, [10]⟩, ⟨9, 1, [11]⟩] []
    { canMsgReceived := true, txCount := 0, rxCount := 0, lastTxTime := 0,
      sendingEnabled := false, rxLog := List.replicate 5 emptyMessage, rxLogIndex := 0,
      lastTx := emptyMessage, sd := initSDState,
      scr := { screenOn := true, powerSaveMode := false, currentBrightness := 100,
               lastActivityTime := 0, lastDisplayUpdate := 0,
               cache := { displayInitialized := false, lastBatPercent := -1,
                          lastCharging := false, lastTxCount := 0, lastRxCount := 0,
                          lastSendingState := true, lastSDLoggingState := false,
                          buttonsDrawn := false, lastSDState := false, lastSDInit := false,
                          lastFastCharge := false } } } rfl
  exact ⟨h.1, by rw [h.2.1]; rfl⟩

/-! ### C5: bus and logging paths are independent of the screen state -/

lemma receiveCanMessages_setScr (now : Nat) (pending : List CanMessage) (envs : List RotEnv)
    (s : SysState) (z : ScreenState) :
    receiveCanMessages now pending envs (setScr s z)
      = (setScr (receiveCanMessages now pending envs s).1 z,
         (receiveCanMessages now pending envs s).2) := by
  rw [receiveCanMessages_spec, receiveCanMessages_spec]
  rfl

lemma rxPhase_setScr (now : Nat) (pending : List CanMessage) (envs : List RotEnv)
    (s : SysState) (z : ScreenState) :
    rxPhase now pending envs (setScr s z)
      = (setScr (rxPhase now pending envs s).1 z, (rxPhase now pending envs s).2) := by
  simp only [rxPhase]
  by_cases h : s.canMsgReceived = true
  · rw [if_pos h, if_pos (show (setScr s z).canMsgReceived = true from h)]
    exact receiveCanMessages_setScr now pending envs s z
  · rw [if_neg h, if_neg (show ¬(setScr s z).canMsgReceived = true from h)]

lemma txPhase_setScr (now : Nat) (result : Bool) (env : RotEnv) (s : SysState)
    (z : ScreenState) :
    txPhase now result env (setScr s z)
      = (setScr (txPhase now result env s).1 z, (txPhase now result env s).2) := by
  simp only [txPhase, sendCanMessage]
  by_cases h : s.sendingEnabled = true ∧ now - s.lastTxTime ≥ 1000
  · rw [if_pos h, if_pos (show (setScr s z).sendingEnabled = true
        ∧ now - (setScr s z).lastTxTime ≥ 1000 from h)]
    by_cases hr : result = true
    · rw [if_pos hr, if_pos hr]
      rfl
    · rw [if_neg hr, if_neg hr]
      rfl
  · rw [if_neg h, if_neg (show ¬((setScr s z).sendingEnabled = true
        ∧ now - (setScr s z).lastTxTime ≥ 1000) from h)]

lemma imuPhase_setScr (now : Nat) (sampleCsv : String) (env : RotEnv) (s : SysState)
    (z : ScreenState) :
    imuPhase now sampleCsv env (setScr s z)
      = (setScr (imuPhase now sampleCsv env s).1 z, (imuPhase now sampleCsv env s).2) := by
  simp only [imuPhase]
  by_cases h : s.sd.sdLoggingEnabled = true ∧ now - s.sd.lastImuLogTime ≥ 100
  · rw [if_pos h, if_pos (show (setScr s z).sd.sdLoggingEnabled = true
        ∧ now - (setScr s z).sd.lastImuLogTime ≥ 100 from h)]
    rfl
  · rw [if_neg h, if_neg (show ¬((setScr s z).sd.sdLoggingEnabled = true
        ∧ now - (setScr s z).sd.lastImuLogTime ≥ 100) from h)]

lemma busPhases_setScr (now : Nat) (pending : List CanMessage) (rxEnvs : List RotEnv)
    (sendResult : Bool) (txEnv : RotEnv) (imuCsv : String) (imuEnv : RotEnv)
    (s : SysState) (z : ScreenState) :
    busPhases now pending rxEnvs sendResult txEnv imuCsv imuEnv (setScr s z)
      = (setScr (busPhases now pending rxEnvs sendResult txEnv imuCsv imuEnv s).1 z,
         (busPhases now pending rxEnvs sendResult txEnv imuCsv imuEnv s).2) := by
  unfold busPhases
  rw [rxPhase_setScr]
  dsimp only
  rw [txPhase_setScr]
  dsimp only
  rw [imuPhase_setScr]

/-- C5: the receive-drain, periodic-transmit and dual-stream-logging
phases of a loop tick neither read nor write the screen/power substate
(replacing it commutes with the three phases, so they behave
identically whenever the screen is on or off, toggled or timed out);
consequently the bus/log event trace of a whole tick is independent of
the screen substate.  Button B only modifies the screen substate via
`toggleScreen`, the idle timeout only modifies the screen substate, and
a tick performs a display refresh exactly when the screen is on at the
refresh point and the 100 ms cadence has elapsed. -/
theorem c5_screen_off_does_not_gate_bus (now : Nat) (pending : List CanMessage)
    (rxEnvs : List RotEnv) (sendResult : Bool) (txEnv : RotEnv) (imuCsv : String)
    (imuEnv : RotEnv) (env : RotEnv) (live : LiveView) (inp : TickInput) (s : SysState)
    (z : ScreenState) :
    busPhases now pending rxEnvs sendResult txEnv imuCsv imuEnv (setScr s z)
      = (setScr (busPhases now pending rxEnvs sendResult txEnv imuCsv imuEnv s).1 z,
         (busPhases now pending rxEnvs sendResult txEnv imuCsv imuEnv s).2) ∧
    (loopTick inp (setScr s z)).2.1 = (loopTick inp s).2.1 ∧
    buttonPhase now false true false false env s = setScr s (toggleScreenOp now s.scr) ∧
    (∃ z2, powerPhase now s = setScr s z2) ∧
    ((displayPhase now live s).2 = true ↔
      (s.scr.screenOn = true ∧ now - s.scr.lastDisplayUpdate ≥ 100)) := by
  refine ⟨busPhases_setScr now pending rxEnvs sendResult txEnv imuCsv imuEnv s z, ?_, ?_, ?_, ?_⟩
  · unfold loopTick
    rw [busPhases_setScr]
  · simp [buttonPhase, setScr]
  · by_cases h : s.scr.screenOn = true ∧ now - s.scr.lastActivityTime > 15000
        ∧ s.scr.powerSaveMode = false
    · exact ⟨_, by unfold powerPhase setScr; rw [if_pos h]⟩
    · refine ⟨s.scr, ?_⟩
      unfold powerPhase setScr
      rw [if_neg h]
  · unfold displayPhase
    by_cases h : s.scr.screenOn = true ∧ now - s.scr.lastDisplayUpdate ≥ 100
    · rw [if_pos h]
      simp [h]
    · rw [if_neg h]
      simp [h]

/-! ### C8: send semantics -/

/-- A concrete quiescent system state. -/
def idleState : SysState :=
  { canMsgReceived := false, txCount := 3, rxCount := 4, lastTxTime := 0,
    sendingEnabled := true, rxLog := List.replicate 5 emptyMessage, rxLogIndex := 2,
    lastTx := emptyMessage, sd := initSDState,
    scr := { screenOn := true, powerSaveMode := false, currentBrightness := 100,
             lastActivityTime := 0, lastDisplayUpdate := 0,
             cache := { displayInitialized := true, lastBatPercent := 50,
                        lastCharging := false, lastTxCount := 3, lastRxCount := 4,
                        lastSendingState := true, lastSDLoggingState := false,
                        buttonsDrawn := true, lastSDState := false, lastSDInit := true,
                        lastFastCharge := false } } }

/-- C8 as stated asserts that a send failure is *counted*.  Read on the
program state, that requires a failed send to change some state
component (a tally).  `sendCanMessage` on failure returns the state
unchanged. -/
def C8FailureCounted : Prop :=
  ∀ (s : SysState) (now : Nat) (env : RotEnv), (sendCanMessage now false env s).1 ≠ s

/-- C8 counterexample: a failed send leaves the whole program state —
including every counter — bit-for-bit unchanged, so no state component
counts failures; the failure is visible only as the serial debug
report. -/
theorem c8_counterexample : ¬ C8FailureCounted := by
  intro h
  exact h idleState 5 defaultEnv rfl

/-- C8 amended: on a successful send the TX counter increments by
exactly one, the last-sent frame record is set to the sent frame, and
the frame is handed to the logger; the bus sees exactly one send
attempt.  On a controller failure the send is dropped, not retried (the
trace holds a single send attempt followed only by the debug report),
and the entire state — TX counter, last-sent frame, logger state and
storage — is unchanged; failures are not tallied anywhere. -/
theorem c8_send_result_semantics (now : Nat) (env : RotEnv) (s : SysState) :
    ((sendCanMessage now true env s).1.txCount = s.txCount + 1 ∧
     (sendCanMessage now true env s).1.lastTx = canFrameConst ∧
     (sendCanMessage now true env s).1.sd
       = logCanFrame now env "TX" canFrameConst.id canFrameConst.len canFrameConst.data s.sd ∧
     (sendCanMessage now true env s).2
       = [Ev.busSend canFrameConst, Ev.txLogCall canFrameConst]) ∧
    ((sendCanMessage now false env s).1 = s ∧
     (sendCanMessage now false env s).2 = [Ev.busSend canFrameConst, Ev.txSendError]) :=
  ⟨⟨rfl, rfl, rfl, rfl⟩, ⟨rfl, rfl⟩⟩

/-! ### C6: full-redraw behaviour of the display cache -/

/-- Live values for a quiescent device right after a wake: no frame has
ever been sent or received (`txCount = rxCount = 0`). -/
def c6Live : LiveView :=
  { canOk := true, batPercent := 50, isCharging := false, txCount := 0, rxCount := 0,
    sendingEnabled := false, sdLoggingEnabled := false, sdInitialized := true }

/-- The cache right after `wakeScreen` forced `displayInitialized =
false`; the cached values predate the screen-off period and happen to
match the (unchanged) live values. -/
def c6Cache : DispCache :=
  { displayInitialized := false, lastBatPercent := 50, lastCharging := false,
    lastTxCount := 0, lastRxCount := 0, lastSendingState := false,
    lastSDLoggingState := false, buttonsDrawn := true, lastSDState := false,
    lastSDInit := true, lastFastCharge := false }

/-- C6 failing run: on the first refresh after a wake
(`displayInitialized = false`), with `txCount = rxCount = 0`, the TX
section and the RX list are *not* redrawn — the forcing block resets
their caches to `0`, which equals the live counters — although the code
comment says "Force update of everything"; and on the immediately
following refresh with no value changes the redraw set is not empty:
the CAN LED is drawn unconditionally on every `updateHeader` call. -/
theorem c6_forced_redraw_gap :
    (c6Cache.displayInitialized = false ∧
     Widget.txSection ∉ (updateDisplay c6Live c6Cache).2 ∧
     Widget.rxView ∉ (updateDisplay c6Live c6Cache).2 ∧
     Widget.staticElements ∈ (updateDisplay c6Live c6Cache).2) ∧
    (Widget.canLed ∈ (updateDisplay c6Live (updateDisplay c6Live c6Cache).1).2 ∧
     (updateDisplay c6Live (updateDisplay c6Live c6Cache).1).2 ≠ []) := by
  decide

/-! ### C9: the frame-catalogue variant (src/main.cpp)

This variant replaces the single fixed frame with `carFrames[]`, the
NEXT button advancing `currentFrameIndex` and — when periodic sending
is enabled — firing the newly selected frame immediately and resetting
the periodic timer. -/

namespace Catalog

/-- One catalogue entry (`CarFrame`). -/
structure CarFrame where
  id : Nat
  len : Nat
  data : List Nat
  name : String
deriving DecidableEq

instance : Inhabited CarFrame := ⟨⟨0, 0, [], ""⟩⟩

/-- The `carFrames[]` table of main.cpp. -/
def carFrames : List CarFrame :=
  [⟨0x7DF, 8, [0x02, 0x01, 0x0C, 0x55, 0x55, 0x55, 0x55, 0x55], "RPM"⟩,
   ⟨0x7DF, 8, [0x02, 0x01, 0x0D, 0x55, 0x55, 0x55, 0x55, 0x55], "Speed"⟩,
   ⟨0x7DF, 8, [0x02, 0x01, 0x05, 0x55, 0x55, 0x55, 0x55, 0x55], "Coolant"⟩,
   ⟨0x7DF, 8, [0x02, 0x01, 0x0F, 0x55, 0x55, 0x55, 0x55, 0x55], "Intake"⟩,
   ⟨0x7DF, 8, [0x02, 0x01, 0x11, 0x55, 0x55, 0x55, 0x55, 0x55], "Throttle"⟩,
   ⟨0x7DF, 8, [0x02, 0x01, 0x2F, 0x55, 0x55, 0x55, 0x55, 0x55], "Fuel"⟩,
   ⟨0x7DF, 8, [0x02, 0x01, 0x04, 0x55, 0x55, 0x55, 0x55, 0x55], "Load"⟩,
   ⟨0x7DF, 8, [0x02, 0x01, 0x42, 0x55, 0x55, 0x55, 0x55, 0x55], "Voltage"⟩,
   ⟨0x7DF, 8, [0x02, 0x09, 0x02, 0x55, 0x55, 0x55, 0x55, 0x55], "VIN"⟩,
   ⟨0x316, 8, [0x05, 0x1C, 0x00, 0x00, 0x00, 0x00, 0x00, 0x00], "RPM BMW"⟩,
   ⟨0x153, 8, [0x00, 0x00, 0x00, 0x00, 0x00, 0x00, 0x00, 0x00], "Speed VAG"⟩,
   ⟨0x280, 8, [0x00, 0x00, 0x00, 0x00, 0x00, 0x00, 0x00, 0x00], "RPM PSA"⟩]

/-- `numCarFrames = sizeof(carFrames) / sizeof(carFrames[0])`. -/
def numCarFrames : Nat := carFrames.length

/-- The globals of the catalogue variant the NEXT handler touches. -/
structure CatState where
  currentFrameIndex : Nat
  txCount : Nat
  lastTxTime : Nat
  sendingEnabled : Bool
  debugSerial : Bool
  lastTx : CanMessage
deriving DecidableEq

/-- Bus effects of the handler. -/
inductive CatEv
  | busSend (f : CarFrame)
  | sendError
deriving DecidableEq

/-- This variant's `sendCanMessage`: fire `carFrames[currentFrameIndex]`;
on success bump the TX counter and record the frame; on failure only
the (optional) debug line. -/
def sendCanMessage (result : Bool) (s : CatState) : CatState × List CatEv :=
  let frame := carFrames.getD s.currentFrameIndex default
  if result = true then
    ({ s with txCount := s.txCount + 1
              lastTx := { id := frame.id, len := frame.len, data := frame.data } },
     [CatEv.busSend frame])
  else
    (s, [CatEv.busSend frame, CatEv.sendError])

/-- `nextFrame`: advance the catalogue index, wrapping modulo the
catalogue size. -/
def nextFrame (s : CatState) : CatState :=
  { s with currentFrameIndex := (s.currentFrameIndex + 1) % numCarFrames }

/-- The Button-B section of this variant's `loop()`: advance the frame
and, while in play mode, send the new frame immediately and reset the
periodic timer to `now`. -/
def btnBHandler (now : Nat) (result : Bool) (s : CatState) : CatState × List CatEv :=
  let s1 := nextFrame s
  if s1.sendingEnabled = true then
    let r := sendCanMessage result s1
    ({ r.1 with lastTxTime := now }, r.2)
  else
    (s1, [])

end Catalog

/-- C9: with periodic transmission enabled, advancing the catalogue via
the NEXT button wraps the index modulo the catalogue size (12 entries),
fires the newly selected frame at the bus in the same tick, and resets
the periodic timer to `now`, so the periodic guard
`sendingEnabled && now - lastTxTime >= 1000` cannot fire again — and
hence cannot duplicate the send — until a full period has elapsed. -/
theorem c9_advance_sends_immediately (now : Nat) (result : Bool) (s : Catalog.CatState)
    (hen : s.sendingEnabled = true) :
    (Catalog.btnBHandler now result s).1.currentFrameIndex
      = (s.currentFrameIndex + 1) % Catalog.numCarFrames ∧
    Catalog.CatEv.busSend
        (Catalog.carFrames.getD ((s.currentFrameIndex + 1) % Catalog.numCarFrames) default)
      ∈ (Catalog.btnBHandler now result s).2 ∧
    (Catalog.btnBHandler now result s).1.lastTxTime = now ∧
    (∀ later : Nat, later - now < 1000 →
      ¬((Catalog.btnBHandler now result s).1.sendingEnabled = true ∧
        later - (Catalog.btnBHandler now result s).1.lastTxTime ≥ 1000)) ∧
    Catalog.numCarFrames = 12 := by
  unfold Catalog.btnBHandler Catalog.nextFrame Catalog.sendCanMessage
  rw [if_pos (show ({ s with currentFrameIndex :=
      (s.currentFrameIndex + 1) % Catalog.numCarFrames } : Catalog.CatState).sendingEnabled
      = true from hen)]
  by_cases hr : result = true
  · rw [if_pos hr]
    refine ⟨rfl, by simp, rfl, ?_, rfl⟩
    intro later hlater hguard
    have : later - now ≥ 1000 := hguard.2
    omega
  · rw [if_neg hr]
    refine ⟨rfl, by simp, rfl, ?_, rfl⟩
    intro later hlater hguard
    have : later - now ≥ 1000 := hguard.2
    omega

/-- Witness for C9: from index 1 ("Speed") in play mode, the NEXT
button selects index 2 ("Coolant"), sends it immediately, and resets
the timer to the press instant. -/
theorem c9_advance_sends_immediately_witness :
    (Catalog.btnBHandler 7000 true
        { currentFrameIndex := 1, txCount := 5, lastTxTime := 2000, sendingEnabled := true,
          debugSerial := true, lastTx := emptyMessage }).1.currentFrameIndex
      = (1 + 1) % Catalog.numCarFrames ∧
    Catalog.CatEv.busSend (Catalog.carFrames.getD ((1 + 1) % Catalog.numCarFrames) default)
      ∈ (Catalog.btnBHandler 7000 true
          { currentFrameIndex := 1, txCount := 5, lastTxTime := 2000, sendingEnabled := true,
            debugSerial := true, lastTx := emptyMessage }).2 ∧
    (Catalog.btnBHandler 7000 true
        { currentFrameIndex := 1, txCount := 5, lastTxTime := 2000, sendingEnabled := true,
          debugSerial := true, lastTx := emptyMessage }).1.lastTxTime = 7000 ∧
    (∀ later : Nat, later - 7000 < 1000 →
      ¬((Catalog.btnBHandler 7000 true
            { currentFrameIndex := 1, txCount := 5, lastTxTime := 2000, sendingEnabled := true,
              debugSerial := true, lastTx := emptyMessage }).1.sendingEnabled = true ∧
        later - (Catalog.btnBHandler 7000 true
            { currentFrameIndex := 1, txCount := 5, lastTxTime := 2000, sendingEnabled := true,
              debugSerial := true, lastTx := emptyMessage }).1.lastTxTime ≥ 1000)) ∧
    Catalog.numCarFrames = 12 :=
  c9_advance_sends_immediately 7000 true
    { currentFrameIndex := 1, txCount := 5, lastTxTime := 2000, sendingEnabled := true,
      debugSerial := true, lastTx := emptyMessage } rfl

end M5can
